import Mathlib

/-!
Verification of the star/snowflake data-warehouse lab.

This development shallowly embeds the repository's four Python modules:

* `src/generate_data.py`           — synthetic dataset generator,
* `src/schemas/star_schema.py`     — denormalizing star-schema builder,
* `src/schemas/snowflake_schema.py`— normalized snowflake-schema builder,
* `src/queries/performance_comparison.py` — paired analytical query suite.

Modelling conventions:

* Python `float` prices/amounts/durations are idealized as `ℚ`; Python's
  `round(x, n)` (banker's rounding, half to even) becomes `pyRoundTo n`.
* `random.randint(a, b)` is embedded as `a + oracle i % (b - a + 1)`, which
  has exactly the support of the original call; `random.uniform`, faker
  strings and `DataFrame.sample` become oracle functions, constrained by
  hypotheses mirroring their contracts (`uniform(0, 0.2)` lands in
  `[0, 1/5]`, `sample(1).iloc[0]` returns a row of the frame).
* DataFrames and SQL tables are `List`s of typed row structures; inner
  joins (`pandas.merge`, SQL `JOIN`) are nested loops
  (`flatMap`/`filter`), which is order-faithful up to row permutation —
  no claim below depends on intra-table row order except through
  deterministic recomputation.
* sqlite stores are structures holding each table's rows plus the list of
  secondary indexes `(index_name, table_name)`; `DROP TABLE` removes a
  table's rows and its indexes, `pandas.to_sql(..., if_exists='replace')`
  drops the target table (hence its indexes) and recreates it bare, as
  pandas documents.
-/

namespace SalesLab

/-! ## Calendar model (CPython `datetime.date` semantics)

`generate_time_data` iterates `current_date` from 2022-01-01 to 2024-12-31
by `timedelta(days=1)` and reads `.year/.month/.day/.weekday()` and
`strftime('%B')/('%A')` (C locale: English names). A CPython `date` is a
`(year, month, day)` triple; `date.weekday() = (toordinal + 6) % 7` with
`toordinal` the proleptic-Gregorian ordinal (0001-01-01 ↦ 1). -/

structure PyDate where
  year : Nat
  month : Nat
  day : Nat
deriving DecidableEq, Repr

def isLeapYear (y : Nat) : Bool :=
  (y % 4 == 0 && y % 100 != 0) || y % 400 == 0

def monthDays (y m : Nat) : Nat :=
  if m = 2 then (if isLeapYear y then 29 else 28)
  else if m = 4 ∨ m = 6 ∨ m = 9 ∨ m = 11 then 30
  else 31

/-- Number of days in the months strictly before month `m` of year `y`. -/
def daysBeforeMonth (y m : Nat) : Nat :=
  (List.range (m - 1)).foldr (fun i acc => monthDays y (i + 1) + acc) 0

/-- Proleptic Gregorian ordinal of a date, CPython's `date.toordinal`
(0001-01-01 ↦ 1). -/
def toOrdinalD (d : PyDate) : Nat :=
  365 * (d.year - 1) + (d.year - 1) / 4 - (d.year - 1) / 100 + (d.year - 1) / 400
    + daysBeforeMonth d.year d.month + d.day

/-- CPython `date.weekday()`: Monday = 0 … Sunday = 6, determined by the
fixed epoch 0001-01-01 (a Monday). -/
def pyWeekday (d : PyDate) : Nat := (toOrdinalD d + 6) % 7

/-- Effect of `current_date += timedelta(days=1)` on the calendar triple. -/
def nextDay (d : PyDate) : PyDate :=
  if d.day < monthDays d.year d.month then ⟨d.year, d.month, d.day + 1⟩
  else if d.month < 12 then ⟨d.year, d.month + 1, 1⟩
  else ⟨d.year + 1, 1, 1⟩

/-- Python `date` comparison (lexicographic on year, month, day). -/
def dateLE (a b : PyDate) : Bool :=
  a.year < b.year || (a.year == b.year &&
    (a.month < b.month || (a.month == b.month && a.day ≤ b.day)))

/-- English month names, `strftime('%B')` in the C locale. -/
def monthNames : List String :=
  ["January", "February", "March", "April", "May", "June", "July",
   "August", "September", "October", "November", "December"]

/-- English weekday names, Monday first, `strftime('%A')` in the C locale. -/
def dayNames : List String :=
  ["Monday", "Tuesday", "Wednesday", "Thursday", "Friday", "Saturday", "Sunday"]

/-- Row of the generated time dimension (`generate_time_data`'s dict). -/
structure TimeRow where
  time_id : Nat
  date : PyDate
  year : Nat
  quarter : String
  month : Nat
  month_name : String
  day : Nat
  weekday : Nat
  weekday_name : String
deriving DecidableEq, Repr

/-- Loop body of `generate_time_data`: the record appended for
`current_date` with identifier `time_id`. -/
def mkTimeRow (id : Nat) (d : PyDate) : TimeRow :=
  { time_id := id
    date := d
    year := d.year
    quarter := "Q" ++ toString ((d.month - 1) / 3 + 1)
    month := d.month
    month_name := monthNames.getD (d.month - 1) ""
    day := d.day
    weekday := pyWeekday d + 1
    weekday_name := dayNames.getD (pyWeekday d) "" }

/-- The `while current_date <= end_date` loop of `generate_time_data`,
with fuel strictly larger than the 1096 days of 2022-01-01…2024-12-31
(so the fuel never binds; see `generate_time_data_length`). -/
def timeGo : Nat → PyDate → Nat → List TimeRow
  | 0, _, _ => []
  | fuel + 1, d, id =>
    if dateLE d ⟨2024, 12, 31⟩ then mkTimeRow id d :: timeGo fuel (nextDay d) (id + 1)
    else []

/-- `generate_data.generate_time_data`: one row per calendar day from
2022-01-01 to 2024-12-31, `time_id` starting at 1. -/
def generate_time_data : List TimeRow := timeGo 1100 ⟨2022, 1, 1⟩ 1

set_option maxRecDepth 10000

/-- 2022–2024 span 365 + 365 + 366 = 1096 calendar days, so the loop
terminated on its date guard, not on the fuel. -/
theorem generate_time_data_length : generate_time_data.length = 1096 := by decide

/-- Internal-consistency check for one time row: the quarter label is
`'Q'` followed by `⌈month/3⌉`, the year/month/day fields agree with the
stored date, the weekday number is the one the fixed epoch 0001-01-01
(a Monday) assigns to the stored date with Monday = 1 … Sunday = 7, and
the weekday name is the English name of that weekday number. -/
def timeRowConsistent (r : TimeRow) : Bool :=
  (r.quarter == "Q" ++ toString ((r.month + 2) / 3)) &&
  (r.year == r.date.year) && (r.month == r.date.month) && (r.day == r.date.day) &&
  (r.weekday == (toOrdinalD r.date + 6) % 7 + 1) &&
  (r.weekday_name == dayNames.getD (r.weekday - 1) "")

/-- C6: every row of the generated time dimension has quarter label
`'Q' ++ ⌈month/3⌉`, date-consistent year/month/day, and weekday
number/name determined by the row's date under the fixed calendar epoch
0001-01-01 with Monday = 1 through Sunday = 7. -/
theorem c6_time_dimension_consistent :
    generate_time_data.all timeRowConsistent = true := by decide

/-! ## Rounding (Python `round` on idealized reals) -/

/-- Python `round` to an integer: banker's rounding (round half to even). -/
def pyRoundInt (x : ℚ) : ℤ :=
  let f := ⌊x⌋
  let r := x - (f : ℚ)
  if r < 1/2 then f
  else if 1/2 < r then f + 1
  else if f % 2 = 0 then f else f + 1

/-- Python `round(x, n)` on an idealized (rational) real. -/
def pyRoundTo (n : Nat) (x : ℚ) : ℚ := (pyRoundInt (x * 10 ^ n) : ℚ) / 10 ^ n

/-! ## Entity rows (`generate_data.py` dicts / CSV columns) -/

structure Country where
  country_id : Nat
  country_name : String
deriving DecidableEq, Repr

structure Region where
  region_id : Nat
  region_name : String
  country_id : Nat
deriving DecidableEq, Repr

structure City where
  city_id : Nat
  city_name : String
  region_id : Nat
deriving DecidableEq, Repr

structure Category where
  category_id : Nat
  category_name : String
deriving DecidableEq, Repr

structure Subcategory where
  subcategory_id : Nat
  subcategory_name : String
  category_id : Nat
deriving DecidableEq, Repr

structure Product where
  product_id : Nat
  product_name : String
  product_code : String
  subcategory_id : Nat
  unit_price : ℚ
deriving DecidableEq, Repr

structure Customer where
  customer_id : Nat
  customer_name : String
  email : String
  phone : String
  city_id : Nat
  registration_date : String
deriving DecidableEq, Repr

structure Salesperson where
  salesperson_id : Nat
  salesperson_name : String
  hire_date : String
  region_id : Nat
deriving DecidableEq, Repr

structure Sale where
  sale_id : Nat
  time_id : Nat
  product_id : Nat
  customer_id : Nat
  salesperson_id : Nat
  quantity : Nat
  unit_price : ℚ
  discount : ℚ
  total_amount : ℚ
deriving DecidableEq, Repr

/-! ## Generator (`generate_data.py`)

Record counts fixed at module top of `generate_data.py`. -/

def NUM_REGIONS : Nat := 5
def NUM_CITIES : Nat := 20
def NUM_CATEGORIES : Nat := 8
def NUM_PRODUCTS : Nat := 500
def NUM_CUSTOMERS : Nat := 2000
def NUM_SALES_PEOPLE : Nat := 50
def NUM_SALES_RECORDS : Nat := 50000

def countryNamesGen : List String := ["Україна", "Польща", "Німеччина"]

/-- Countries of `generate_geography_data` (ids enumerate from 1). -/
def generate_countries : List Country :=
  (List.range 3).map (fun j => ⟨j + 1, countryNamesGen.getD j ""⟩)

def regionNamesGen : List String :=
  ["Київська", "Львівська", "Одеська", "Харківська", "Дніпропетровська"]

/-- Regions of `generate_geography_data`: name suffixed with " область",
all in country 1. -/
def generate_regions : List Region :=
  (List.range NUM_REGIONS).map (fun j => ⟨j + 1, regionNamesGen.getD j "" ++ " область", 1⟩)

def cityNamesGen : List String :=
  ["Київ", "Львів", "Одеса", "Харків", "Дніпро", "Запоріжжя",
   "Вінниця", "Полтава", "Чернівці", "Івано-Франківськ",
   "Тернопіль", "Житомир", "Черкаси", "Суми", "Рівне",
   "Хмельницький", "Чернігів", "Кропивницький", "Миколаїв", "Ужгород"]

/-- Cities of `generate_geography_data`; `region_id` is
`random.randint(1, NUM_REGIONS)`, embedded as `1 + oracle % 5`. -/
def generate_cities (oReg : Nat → Nat) : List City :=
  (List.range NUM_CITIES).map (fun j => ⟨j + 1, cityNamesGen.getD j "", 1 + oReg (j + 1) % NUM_REGIONS⟩)

def categoryNamesGen : List String :=
  ["Електроніка", "Одяг", "Книги", "Дім і сад", "Спорт", "Авто", "Краса", "Їжа"]

/-- Categories of `generate_product_data` (ids enumerate from 1). -/
def generate_categories : List Category :=
  (List.range NUM_CATEGORIES).map (fun j => ⟨j + 1, categoryNamesGen.getD j ""⟩)

/-- Subcategories of `generate_product_data`: the literal
`subcategory_data` dict flattened with a running id (24 rows — three per
category — although `NUM_SUBCATEGORIES = 25`; that constant is unused). -/
def generate_subcategories : List Subcategory :=
  [⟨1, "Смартфони", 1⟩, ⟨2, "Ноутбуки", 1⟩, ⟨3, "Телевізори", 1⟩,
   ⟨4, "Сорочки", 2⟩, ⟨5, "Джинси", 2⟩, ⟨6, "Взуття", 2⟩,
   ⟨7, "Фантастика", 3⟩, ⟨8, "Детективи", 3⟩, ⟨9, "Навчальна література", 3⟩,
   ⟨10, "Меблі", 4⟩, ⟨11, "Інструменти", 4⟩, ⟨12, "Декор", 4⟩,
   ⟨13, "Фітнес", 5⟩, ⟨14, "Туризм", 5⟩, ⟨15, "Командні види спорту", 5⟩,
   ⟨16, "Шини", 6⟩, ⟨17, "Масла", 6⟩, ⟨18, "Аксесуари", 6⟩,
   ⟨19, "Косметика", 7⟩, ⟨20, "Парфуми", 7⟩, ⟨21, "Догляд", 7⟩,
   ⟨22, "М\x27ясо", 8⟩, ⟨23, "Овочі", 8⟩, ⟨24, "Солодощі", 8⟩]

/-- Zero-pad a number to five digits, Python's `f'PRD{i:05d}'` payload. -/
def pad5 (n : Nat) : String :=
  let s := toString n
  String.mk (List.replicate (5 - s.length) '0') ++ s

/-- Products of `generate_product_data`: `subcategory_id` is
`random.randint(1, len(subcategories))` (`len = 24`), `unit_price` is
`round(random.uniform(10, 5000), 2)`, names come from faker. -/
def generate_products (oSub : Nat → Nat) (oName : Nat → String) (oPrice : Nat → ℚ) :
    List Product :=
  (List.range NUM_PRODUCTS).map (fun j =>
    { product_id := j + 1
      product_name := oName (j + 1)
      product_code := "PRD" ++ pad5 (j + 1)
      subcategory_id := 1 + oSub (j + 1) % generate_subcategories.length
      unit_price := pyRoundTo 2 (oPrice (j + 1)) })

/-- `generate_customer_data`: `city_id` is `random.randint(1, NUM_CITIES)`;
name/email/phone/registration date are faker payloads. -/
def generate_customer_data (oCity : Nat → Nat) (oName oEmail oPhone oRegDate : Nat → String) :
    List Customer :=
  (List.range NUM_CUSTOMERS).map (fun j =>
    ⟨j + 1, oName (j + 1), oEmail (j + 1), oPhone (j + 1),
     1 + oCity (j + 1) % NUM_CITIES, oRegDate (j + 1)⟩)

/-- `generate_sales_people_data`: `region_id` is `random.randint(1, NUM_REGIONS)`. -/
def generate_sales_people_data (oReg : Nat → Nat) (oName oHire : Nat → String) :
    List Salesperson :=
  (List.range NUM_SALES_PEOPLE).map (fun j =>
    ⟨j + 1, oName (j + 1), oHire (j + 1), 1 + oReg (j + 1) % NUM_REGIONS⟩)

/-- `generate_sales_data`: each fact row samples one row from each
dimension frame (`df.sample(1).iloc[0]`, embedded as the `pick*` oracles,
whose membership in the frames is a hypothesis of the theorems below),
draws `quantity = randint(1, 10)` and `discount = round(uniform(0, 0.2), 3)`,
copies the sampled product's `unit_price`, and sets
`total_amount = round(quantity * unit_price * (1 - discount), 2)`. -/
def generate_sales_data (time_df : List TimeRow) (products_df : List Product)
    (customers_df : List Customer) (sales_people_df : List Salesperson)
    (pickT : Nat → TimeRow) (pickP : Nat → Product) (pickC : Nat → Customer)
    (pickS : Nat → Salesperson) (oQty : Nat → Nat) (oDisc : Nat → ℚ) : List Sale :=
  (List.range NUM_SALES_RECORDS).map (fun j =>
    let i := j + 1
    let t := pickT i
    let p := pickP i
    let c := pickC i
    let sp := pickS i
    let quantity := 1 + oQty i % 10
    let unit_price := p.unit_price
    let discount := pyRoundTo 3 (oDisc i)
    { sale_id := i
      time_id := t.time_id
      product_id := p.product_id
      customer_id := c.customer_id
      salesperson_id := sp.salesperson_id
      quantity := quantity
      unit_price := unit_price
      discount := discount
      total_amount := pyRoundTo 2 (quantity * unit_price * (1 - discount)) })

/-- The flat dataset: the ten CSV files the generator writes and both
schema builders read. -/
structure FlatData where
  countries : List Country
  regions : List Region
  cities : List City
  categories : List Category
  subcategories : List Subcategory
  products : List Product
  customers : List Customer
  sales_people : List Salesperson
  time_rows : List TimeRow
  sales : List Sale
deriving DecidableEq

/-- Random draws and faker payloads consumed by one run of
`save_data_to_csv`, indexed by the row being generated. -/
structure GenOracles where
  cityReg : Nat → Nat
  prodSub : Nat → Nat
  prodName : Nat → String
  prodPrice : Nat → ℚ
  custCity : Nat → Nat
  custName : Nat → String
  custEmail : Nat → String
  custPhone : Nat → String
  custRegDate : Nat → String
  spReg : Nat → Nat
  spName : Nat → String
  spHire : Nat → String
  pickT : Nat → TimeRow
  pickP : Nat → Product
  pickC : Nat → Customer
  pickS : Nat → Salesperson
  qty : Nat → Nat
  disc : Nat → ℚ

/-- Generation phase of `save_data_to_csv` (the CSV writing is I/O glue):
the flat dataset one generator run produces. -/
def generate_all (o : GenOracles) : FlatData :=
  { countries := generate_countries
    regions := generate_regions
    cities := generate_cities o.cityReg
    categories := generate_categories
    subcategories := generate_subcategories
    products := generate_products o.prodSub o.prodName o.prodPrice
    customers := generate_customer_data o.custCity o.custName o.custEmail o.custPhone o.custRegDate
    sales_people := generate_sales_people_data o.spReg o.spName o.spHire
    time_rows := generate_time_data
    sales := generate_sales_data generate_time_data
      (generate_products o.prodSub o.prodName o.prodPrice)
      (generate_customer_data o.custCity o.custName o.custEmail o.custPhone o.custRegDate)
      (generate_sales_people_data o.spReg o.spName o.spHire)
      o.pickT o.pickP o.pickC o.pickS o.qty o.disc }

/-! ## Key lookups and dataset well-formedness -/

def lookupCountry (d : FlatData) (k : Nat) : Option Country :=
  d.countries.find? (fun c => c.country_id == k)

def lookupRegion (d : FlatData) (k : Nat) : Option Region :=
  d.regions.find? (fun r => r.region_id == k)

def lookupCity (d : FlatData) (k : Nat) : Option City :=
  d.cities.find? (fun c => c.city_id == k)

def lookupCategory (d : FlatData) (k : Nat) : Option Category :=
  d.categories.find? (fun c => c.category_id == k)

def lookupSubcategory (d : FlatData) (k : Nat) : Option Subcategory :=
  d.subcategories.find? (fun s => s.subcategory_id == k)

def lookupProduct (d : FlatData) (k : Nat) : Option Product :=
  d.products.find? (fun p => p.product_id == k)

def lookupCustomer (d : FlatData) (k : Nat) : Option Customer :=
  d.customers.find? (fun c => c.customer_id == k)

def lookupSalesperson (d : FlatData) (k : Nat) : Option Salesperson :=
  d.sales_people.find? (fun s => s.salesperson_id == k)

def lookupTime (d : FlatData) (k : Nat) : Option TimeRow :=
  d.time_rows.find? (fun t => t.time_id == k)

/-- Surrogate keys of a table are pairwise distinct. -/
def uniqueBy (key : α → Nat) (l : List α) : Prop :=
  l.Pairwise (fun a b => key a ≠ key b)

/-- Referential integrity and key uniqueness of a flat dataset: every
table's surrogate key is unique and every foreign key resolves. The
generator guarantees this (spec §4.1); the builders assume it. -/
def WellFormed (d : FlatData) : Prop :=
  uniqueBy Country.country_id d.countries ∧
  uniqueBy Region.region_id d.regions ∧
  uniqueBy City.city_id d.cities ∧
  uniqueBy Category.category_id d.categories ∧
  uniqueBy Subcategory.subcategory_id d.subcategories ∧
  uniqueBy Product.product_id d.products ∧
  uniqueBy Customer.customer_id d.customers ∧
  uniqueBy Salesperson.salesperson_id d.sales_people ∧
  uniqueBy TimeRow.time_id d.time_rows ∧
  (∀ r ∈ d.regions, (lookupCountry d r.country_id).isSome) ∧
  (∀ ci ∈ d.cities, (lookupRegion d ci.region_id).isSome) ∧
  (∀ sc ∈ d.subcategories, (lookupCategory d sc.category_id).isSome) ∧
  (∀ p ∈ d.products, (lookupSubcategory d p.subcategory_id).isSome) ∧
  (∀ c ∈ d.customers, (lookupCity d c.city_id).isSome) ∧
  (∀ sp ∈ d.sales_people, (lookupRegion d sp.region_id).isSome) ∧
  (∀ f ∈ d.sales, (lookupTime d f.time_id).isSome) ∧
  (∀ f ∈ d.sales, (lookupProduct d f.product_id).isSome) ∧
  (∀ f ∈ d.sales, (lookupCustomer d f.customer_id).isSome) ∧
  (∀ f ∈ d.sales, (lookupSalesperson d f.salesperson_id).isSome)

/-! ## Star-schema builder (`star_schema.py`)

`StarSchemaBuilder.load_data` denormalizes via `pandas.merge` inner joins
and loads with `to_sql(..., if_exists='replace')`. -/

/-- Row of the star store's wide `dim_product` table. -/
structure StarProduct where
  product_id : Nat
  product_name : String
  product_code : String
  unit_price : ℚ
  subcategory_name : String
  category_name : String
deriving DecidableEq, Repr

/-- Row of the star store's wide `dim_customer` table. -/
structure StarCustomer where
  customer_id : Nat
  customer_name : String
  email : String
  phone : String
  registration_date : String
  city_name : String
  region_name : String
  country_name : String
deriving DecidableEq, Repr

/-- Row of the star store's wide `dim_salesperson` table. -/
structure StarSalesperson where
  salesperson_id : Nat
  salesperson_name : String
  hire_date : String
  region_name : String
  country_name : String
deriving DecidableEq, Repr

/-- `products.merge(subcategories, on='subcategory_id').merge(categories,
on='category_id')` projected to the star `dim_product` columns (inner
joins as nested loops). -/
def dim_product_star (d : FlatData) : List StarProduct :=
  d.products.flatMap (fun p =>
    (d.subcategories.filter (fun sc => sc.subcategory_id == p.subcategory_id)).flatMap (fun sc =>
      (d.categories.filter (fun c => c.category_id == sc.category_id)).map (fun c =>
        { product_id := p.product_id
          product_name := p.product_name
          product_code := p.product_code
          unit_price := p.unit_price
          subcategory_name := sc.subcategory_name
          category_name := c.category_name })))

/-- `customers.merge(cities).merge(regions).merge(countries)` projected to
the star `dim_customer` columns. -/
def dim_customer_star (d : FlatData) : List StarCustomer :=
  d.customers.flatMap (fun cu =>
    (d.cities.filter (fun ci => ci.city_id == cu.city_id)).flatMap (fun ci =>
      (d.regions.filter (fun r => r.region_id == ci.region_id)).flatMap (fun r =>
        (d.countries.filter (fun co => co.country_id == r.country_id)).map (fun co =>
          { customer_id := cu.customer_id
            customer_name := cu.customer_name
            email := cu.email
            phone := cu.phone
            registration_date := cu.registration_date
            city_name := ci.city_name
            region_name := r.region_name
            country_name := co.country_name }))))

/-- `sales_people.merge(regions).merge(countries)` projected to the star
`dim_salesperson` columns. -/
def dim_salesperson_star (d : FlatData) : List StarSalesperson :=
  d.sales_people.flatMap (fun sp =>
    (d.regions.filter (fun r => r.region_id == sp.region_id)).flatMap (fun r =>
      (d.countries.filter (fun co => co.country_id == r.country_id)).map (fun co =>
        { salesperson_id := sp.salesperson_id
          salesperson_name := sp.salesperson_name
          hire_date := sp.hire_date
          region_name := r.region_name
          country_name := co.country_name })))

/-- State of the star sqlite store: the five tables plus its secondary
indexes as `(index_name, table_name)` pairs. -/
structure StarStore where
  dim_product : List StarProduct
  dim_customer : List StarCustomer
  dim_salesperson : List StarSalesperson
  dim_time : List TimeRow
  sales_facts : List Sale
  indexes : List (String × String)
deriving DecidableEq

def starTableNames : List String :=
  ["sales_facts", "dim_product", "dim_customer", "dim_salesperson", "dim_time"]

/-- The nine `CREATE INDEX` statements of `create_star_schema`. -/
def starIndexDefs : List (String × String) :=
  [("idx_sales_time", "sales_facts"), ("idx_sales_product", "sales_facts"),
   ("idx_sales_customer", "sales_facts"), ("idx_sales_salesperson", "sales_facts"),
   ("idx_time_date", "dim_time"), ("idx_time_year", "dim_time"),
   ("idx_product_category", "dim_product"),
   ("idx_customer_city", "dim_customer"), ("idx_customer_region", "dim_customer")]

/-- Dropping tables removes every index that lives on them (sqlite
`DROP TABLE` semantics). -/
def dropIndexesOn (tables : List String) (ix : List (String × String)) :
    List (String × String) :=
  ix.filter (fun p => !(tables.contains p.2))

/-- `StarSchemaBuilder.create_star_schema`: `DROP TABLE IF EXISTS` on the
five tables (taking their indexes with them), `CREATE TABLE` (empty), then
the nine `CREATE INDEX` statements. -/
def create_star_schema (s : StarStore) : StarStore :=
  { dim_product := []
    dim_customer := []
    dim_salesperson := []
    dim_time := []
    sales_facts := []
    indexes := dropIndexesOn starTableNames s.indexes ++ starIndexDefs }

/-- `StarSchemaBuilder.load_data`: one `to_sql(..., if_exists='replace')`
per table. Each call drops the target table — destroying the indexes on
it — and recreates it bare from the DataFrame; the five sequential drops
amount to removing every index on the five star tables. -/
def load_data_star (d : FlatData) (s : StarStore) : StarStore :=
  { dim_product := dim_product_star d
    dim_customer := dim_customer_star d
    dim_salesperson := dim_salesperson_star d
    dim_time := d.time_rows
    sales_facts := d.sales
    indexes := dropIndexesOn starTableNames s.indexes }

/-- `StarSchemaBuilder`'s build sequence: `create_star_schema()` then
`load_data()`. -/
def buildStar (d : FlatData) (s : StarStore) : StarStore :=
  load_data_star d (create_star_schema s)

/-! ## Snowflake-schema builder (`snowflake_schema.py`) -/

/-- State of the snowflake sqlite store: ten verbatim tables plus its
secondary indexes. -/
structure SnowStore where
  dim_country : List Country
  dim_region : List Region
  dim_city : List City
  dim_category : List Category
  dim_subcategory : List Subcategory
  dim_product : List Product
  dim_customer : List Customer
  dim_salesperson : List Salesperson
  dim_time : List TimeRow
  sales_facts : List Sale
  indexes : List (String × String)
deriving DecidableEq

def snowTableNames : List String :=
  ["sales_facts", "dim_product", "dim_customer", "dim_salesperson", "dim_time",
   "dim_category", "dim_subcategory", "dim_city", "dim_region", "dim_country"]

/-- The twelve `CREATE INDEX` statements of `create_snowflake_schema`. -/
def snowIndexDefs : List (String × String) :=
  [("idx_sf_sales_time", "sales_facts"), ("idx_sf_sales_product", "sales_facts"),
   ("idx_sf_sales_customer", "sales_facts"), ("idx_sf_sales_salesperson", "sales_facts"),
   ("idx_sf_time_date", "dim_time"), ("idx_sf_time_year", "dim_time"),
   ("idx_sf_product_subcategory", "dim_product"),
   ("idx_sf_subcategory_category", "dim_subcategory"),
   ("idx_sf_customer_city", "dim_customer"), ("idx_sf_city_region", "dim_city"),
   ("idx_sf_region_country", "dim_region"), ("idx_sf_salesperson_region", "dim_salesperson")]

/-- `SnowflakeSchemaBuilder.create_snowflake_schema`: drop the ten tables,
create them empty, create the twelve indexes. -/
def create_snowflake_schema (s : SnowStore) : SnowStore :=
  { dim_country := []
    dim_region := []
    dim_city := []
    dim_category := []
    dim_subcategory := []
    dim_product := []
    dim_customer := []
    dim_salesperson := []
    dim_time := []
    sales_facts := []
    indexes := dropIndexesOn snowTableNames s.indexes ++ snowIndexDefs }

/-- `SnowflakeSchemaBuilder.load_data`: ten verbatim
`to_sql(..., if_exists='replace')` loads, each dropping and recreating its
target table (destroying that table's indexes). -/
def load_data_snowflake (d : FlatData) (s : SnowStore) : SnowStore :=
  { dim_country := d.countries
    dim_region := d.regions
    dim_city := d.cities
    dim_category := d.categories
    dim_subcategory := d.subcategories
    dim_product := d.products
    dim_customer := d.customers
    dim_salesperson := d.sales_people
    dim_time := d.time_rows
    sales_facts := d.sales
    indexes := dropIndexesOn snowTableNames s.indexes }

/-- `SnowflakeSchemaBuilder`'s build sequence. -/
def buildSnow (d : FlatData) (s : SnowStore) : SnowStore :=
  load_data_snowflake d (create_snowflake_schema s)

/-! ## C3 and C7: index survival and rebuild idempotence -/

theorem dropIndexesOn_not_mem (tables : List String) (ix : List (String × String))
    (p : String × String) (hp : p.2 ∈ tables) : p ∉ dropIndexesOn tables ix := by
  intro hmem
  have h2 := (List.mem_filter.mp hmem).2
  rw [Bool.not_eq_true'] at h2
  have h3 : tables.contains p.2 = true := List.elem_iff.mpr hp
  rw [h2] at h3
  exact Bool.false_ne_true h3

theorem dropIndexesOn_append (tables : List String) (a b : List (String × String)) :
    dropIndexesOn tables (a ++ b) = dropIndexesOn tables a ++ dropIndexesOn tables b :=
  List.filter_append ..

theorem dropIndexesOn_idem (tables : List String) (ix : List (String × String)) :
    dropIndexesOn tables (dropIndexesOn tables ix) = dropIndexesOn tables ix := by
  simp [dropIndexesOn, List.filter_filter]

/-- C3 support: after either builder's build sequence, not one of the
secondary indexes created in the schema-creation step exists in the
resulting store — every `to_sql(..., if_exists='replace')` load dropped
the freshly indexed table. The claim that they "still exist" contradicts
the builders' own schema-creation step, whose indexes are evidently meant
to survive (a known pandas `to_sql` pitfall), so the claim stands and the
code is the bug. -/
theorem c3_no_index_survives_build (d : FlatData) (s : StarStore) (t : SnowStore) :
    (starIndexDefs.all (fun ix => !((buildStar d s).indexes.contains ix)) = true) ∧
    (snowIndexDefs.all (fun ix => !((buildSnow d t).indexes.contains ix)) = true) := by
  constructor
  · rw [List.all_eq_true]
    intro ix hix
    have htab : ix.2 ∈ starTableNames := by
      fin_cases hix <;> simp [starTableNames]
    have hnot : ix ∉ (buildStar d s).indexes :=
      dropIndexesOn_not_mem _ _ _ htab
    simpa [List.elem_iff] using hnot
  · rw [List.all_eq_true]
    intro ix hix
    have htab : ix.2 ∈ snowTableNames := by
      fin_cases hix <;> simp [snowTableNames]
    have hnot : ix ∉ (buildSnow d t).indexes :=
      dropIndexesOn_not_mem _ _ _ htab
    simpa [List.elem_iff] using hnot

theorem dropIndexesOn_starIndexDefs :
    dropIndexesOn starTableNames starIndexDefs = [] := by decide

theorem dropIndexesOn_snowIndexDefs :
    dropIndexesOn snowTableNames snowIndexDefs = [] := by decide

/-- C7: running a builder's build sequence twice on the same flat dataset
leaves the store exactly as after the first run (drop-and-recreate
semantics), for both builders. -/
theorem c7_rebuild_idempotent (d : FlatData) (s : StarStore) (t : SnowStore) :
    buildStar d (buildStar d s) = buildStar d s ∧
    buildSnow d (buildSnow d t) = buildSnow d t := by
  constructor
  · simp [buildStar, load_data_star, create_star_schema, dropIndexesOn_append,
      dropIndexesOn_idem, dropIndexesOn_starIndexDefs]
  · simp [buildSnow, load_data_snowflake, create_snowflake_schema, dropIndexesOn_append,
      dropIndexesOn_idem, dropIndexesOn_snowIndexDefs]

/-! ## Join-canonicalization toolkit

Nested-loop joins over uniquely-keyed tables collapse to `find?` lookups;
these lemmas implement that collapse. -/

theorem filter_eq_find?_toList (key : α → Nat) (l : List α) (h : uniqueBy key l) (k : Nat) :
    l.filter (fun a => key a == k) = (l.find? (fun a => key a == k)).toList := by
  induction l with
  | nil => rfl
  | cons a as ih =>
    rcases List.pairwise_cons.mp h with ⟨ha, has⟩
    by_cases hk : (key a == k) = true
    · have hrest : as.filter (fun b => key b == k) = [] := by
        rw [List.filter_eq_nil_iff]
        intro b hb
        have := ha b hb
        simp only [beq_iff_eq] at hk ⊢
        omega
      simp [List.filter_cons, List.find?_cons, hk, hrest]
    · simp only [Bool.not_eq_true] at hk
      simp [List.filter_cons, List.find?_cons, hk, ih has]

theorem flatMap_optToList (l : List α) (f : α → Option β) :
    (l.flatMap (fun a => (f a).toList)) = l.filterMap f := by
  induction l with
  | nil => rfl
  | cons a as ih => cases h : f a <;> simp [h, ih]

theorem optToList_map (o : Option α) (f : α → β) :
    o.toList.map f = (o.map f).toList := by cases o <;> rfl

theorem optToList_flatMap (o : Option α) (g : α → List β) (g' : α → Option β)
    (hg : ∀ a, g a = (g' a).toList) :
    o.toList.flatMap g = (o.bind g').toList := by
  cases o with
  | none => rfl
  | some a => simp [hg a]

theorem uniqueBy_inj (key : α → Nat) (l : List α) (h : uniqueBy key l)
    (a b : α) (ha : a ∈ l) (hb : b ∈ l) (hk : key a = key b) : a = b := by
  induction l with
  | nil => cases ha
  | cons x xs ih =>
    rcases List.pairwise_cons.mp h with ⟨hx, hxs⟩
    rcases List.mem_cons.mp ha with rfl | ha' <;> rcases List.mem_cons.mp hb with rfl | hb'
    · rfl
    · exact absurd hk (hx b hb')
    · exact absurd hk.symm (hx a ha')
    · exact ih hxs ha' hb'

theorem uniqueBy_filterMap (keyA : α → Nat) (keyB : β → Nat) (l : List α) (g : α → Option β)
    (hkey : ∀ a b, g a = some b → keyB b = keyA a) (h : uniqueBy keyA l) :
    uniqueBy keyB (l.filterMap g) := by
  rw [uniqueBy, List.pairwise_filterMap]
  refine h.imp ?_
  intro a b hab x hx y hy
  rw [hkey a x hx, hkey b y hy]
  exact hab

/-- A `find?` by key over a keyed `filterMap` image is the `find?` over the
source followed by the transformation, provided the transformation is
total on the source and preserves the key. -/
theorem find?_filterMap_keyed (l : List α) (g : α → Option β) (keyA : α → Nat) (keyB : β → Nat)
    (hkey : ∀ a b, g a = some b → keyB b = keyA a)
    (htot : ∀ a ∈ l, (g a).isSome) (k : Nat) :
    (l.filterMap g).find? (fun b => keyB b == k) = (l.find? (fun a => keyA a == k)).bind g := by
  induction l with
  | nil => rfl
  | cons a as ih =>
    obtain ⟨b, hb⟩ := Option.isSome_iff_exists.mp (htot a (List.mem_cons_self a as))
    have hkb : (keyB b == k) = (keyA a == k) := by
      rw [hkey a b hb]
    have ih2 := ih (fun a ha => htot a (List.mem_cons_of_mem _ ha))
    by_cases hk : (keyA a == k) = true
    · simp [List.filterMap_cons, hb, List.find?_cons, hkb, hk]
    · simp only [Bool.not_eq_true] at hk
      simp [List.filterMap_cons, hb, List.find?_cons, hkb, hk, ih2]

/-! ## Denormalization chains (the `pandas.merge` pipelines as lookups) -/

/-- One star `dim_product` row as a lookup chain
product → subcategory → category. -/
def prodChain (d : FlatData) (p : Product) : Option StarProduct :=
  (lookupSubcategory d p.subcategory_id).bind (fun sc =>
    (lookupCategory d sc.category_id).map (fun c =>
      { product_id := p.product_id
        product_name := p.product_name
        product_code := p.product_code
        unit_price := p.unit_price
        subcategory_name := sc.subcategory_name
        category_name := c.category_name }))

/-- One star `dim_customer` row as a lookup chain
customer → city → region → country. -/
def custChain (d : FlatData) (cu : Customer) : Option StarCustomer :=
  (lookupCity d cu.city_id).bind (fun ci =>
    (lookupRegion d ci.region_id).bind (fun r =>
      (lookupCountry d r.country_id).map (fun co =>
        { customer_id := cu.customer_id
          customer_name := cu.customer_name
          email := cu.email
          phone := cu.phone
          registration_date := cu.registration_date
          city_name := ci.city_name
          region_name := r.region_name
          country_name := co.country_name })))

/-- One star `dim_salesperson` row as a lookup chain
salesperson → region → country. -/
def spChain (d : FlatData) (sp : Salesperson) : Option StarSalesperson :=
  (lookupRegion d sp.region_id).bind (fun r =>
    (lookupCountry d r.country_id).map (fun co =>
      { salesperson_id := sp.salesperson_id
        salesperson_name := sp.salesperson_name
        hire_date := sp.hire_date
        region_name := r.region_name
        country_name := co.country_name }))

theorem prodChain_id (d : FlatData) (p : Product) (r : StarProduct)
    (h : prodChain d p = some r) : r.product_id = p.product_id := by
  simp only [prodChain, Option.bind_eq_some, Option.map_eq_some'] at h
  obtain ⟨sc, _, c, _, rfl⟩ := h
  rfl

theorem custChain_id (d : FlatData) (cu : Customer) (r : StarCustomer)
    (h : custChain d cu = some r) : r.customer_id = cu.customer_id := by
  simp only [custChain, Option.bind_eq_some, Option.map_eq_some'] at h
  obtain ⟨ci, _, rg, _, co, _, rfl⟩ := h
  rfl

theorem spChain_id (d : FlatData) (sp : Salesperson) (r : StarSalesperson)
    (h : spChain d sp = some r) : r.salesperson_id = sp.salesperson_id := by
  simp only [spChain, Option.bind_eq_some, Option.map_eq_some'] at h
  obtain ⟨rg, _, co, _, rfl⟩ := h
  rfl

/-- The star `dim_product` merge pipeline is the product list filtered
through its lookup chain (uses key uniqueness of the parent tables). -/
theorem dim_product_star_eq (d : FlatData)
    (hsc : uniqueBy Subcategory.subcategory_id d.subcategories)
    (hc : uniqueBy Category.category_id d.categories) :
    dim_product_star d = d.products.filterMap (prodChain d) := by
  unfold dim_product_star prodChain lookupSubcategory lookupCategory
  simp only [filter_eq_find?_toList _ _ hsc, filter_eq_find?_toList _ _ hc]
  refine Eq.trans (List.flatMap_congr (fun p _ => ?_)) (flatMap_optToList ..)
  rw [optToList_flatMap _ _ _ (fun sc => optToList_map ..)]

/-- The star `dim_customer` merge pipeline as a filtered lookup chain. -/
theorem dim_customer_star_eq (d : FlatData)
    (hci : uniqueBy City.city_id d.cities)
    (hr : uniqueBy Region.region_id d.regions)
    (hco : uniqueBy Country.country_id d.countries) :
    dim_customer_star d = d.customers.filterMap (custChain d) := by
  unfold dim_customer_star custChain lookupCity lookupRegion lookupCountry
  simp only [filter_eq_find?_toList _ _ hci, filter_eq_find?_toList _ _ hr,
    filter_eq_find?_toList _ _ hco]
  refine Eq.trans (List.flatMap_congr (fun cu _ => ?_)) (flatMap_optToList ..)
  rw [optToList_flatMap _ _ _ (fun ci => optToList_flatMap _ _ _ (fun r => optToList_map ..))]

/-- The star `dim_salesperson` merge pipeline as a filtered lookup chain. -/
theorem dim_salesperson_star_eq (d : FlatData)
    (hr : uniqueBy Region.region_id d.regions)
    (hco : uniqueBy Country.country_id d.countries) :
    dim_salesperson_star d = d.sales_people.filterMap (spChain d) := by
  unfold dim_salesperson_star spChain lookupRegion lookupCountry
  simp only [filter_eq_find?_toList _ _ hr, filter_eq_find?_toList _ _ hco]
  refine Eq.trans (List.flatMap_congr (fun sp _ => ?_)) (flatMap_optToList ..)
  rw [optToList_flatMap _ _ _ (fun r => optToList_map ..)]

/-! ## C2: star embeddings match the snowflake chains -/

/-- C2: for every row of the star store's `dim_product`, the embedded
subcategory/category names equal the names reached in the snowflake store
by following `product.subcategory_id → subcategory.category_id`; likewise
for customers via city → region → country and salespeople via
region → country, whenever both stores are built from the same
well-formed flat dataset. -/
theorem c2_denormalization_correct (d : FlatData) (s : StarStore) (t : SnowStore)
    (hwf : WellFormed d) :
    (∀ r ∈ (buildStar d s).dim_product, ∀ p ∈ (buildSnow d t).dim_product,
      p.product_id = r.product_id →
      ((buildSnow d t).dim_subcategory.find?
          (fun sc => sc.subcategory_id == p.subcategory_id)).map
        Subcategory.subcategory_name = some r.subcategory_name ∧
      (((buildSnow d t).dim_subcategory.find?
          (fun sc => sc.subcategory_id == p.subcategory_id)).bind
        (fun sc => (buildSnow d t).dim_category.find?
          (fun c => c.category_id == sc.category_id))).map
        Category.category_name = some r.category_name) ∧
    (∀ r ∈ (buildStar d s).dim_customer, ∀ cu ∈ (buildSnow d t).dim_customer,
      cu.customer_id = r.customer_id →
      ((buildSnow d t).dim_city.find? (fun ci => ci.city_id == cu.city_id)).map
        City.city_name = some r.city_name ∧
      (((buildSnow d t).dim_city.find? (fun ci => ci.city_id == cu.city_id)).bind
        (fun ci => (buildSnow d t).dim_region.find?
          (fun rg => rg.region_id == ci.region_id))).map
        Region.region_name = some r.region_name ∧
      ((((buildSnow d t).dim_city.find? (fun ci => ci.city_id == cu.city_id)).bind
        (fun ci => (buildSnow d t).dim_region.find?
          (fun rg => rg.region_id == ci.region_id))).bind
        (fun rg => (buildSnow d t).dim_country.find?
          (fun co => co.country_id == rg.country_id))).map
        Country.country_name = some r.country_name) ∧
    (∀ r ∈ (buildStar d s).dim_salesperson, ∀ sp ∈ (buildSnow d t).dim_salesperson,
      sp.salesperson_id = r.salesperson_id →
      ((buildSnow d t).dim_region.find? (fun rg => rg.region_id == sp.region_id)).map
        Region.region_name = some r.region_name ∧
      (((buildSnow d t).dim_region.find? (fun rg => rg.region_id == sp.region_id)).bind
        (fun rg => (buildSnow d t).dim_country.find?
          (fun co => co.country_id == rg.country_id))).map
        Country.country_name = some r.country_name) := by
  obtain ⟨u1, u2, u3, u4, u5, u6, u7, u8, u9, r1, r2, r3, r4, r5, r6, f1, f2, f3, f4⟩ := hwf
  refine ⟨?_, ?_, ?_⟩
  · intro r hr p hp hid
    have hr' : r ∈ dim_product_star d := hr
    rw [dim_product_star_eq d u5 u4] at hr'
    obtain ⟨p₀, hp₀, hchain⟩ := List.mem_filterMap.mp hr'
    have hpp : p = p₀ :=
      uniqueBy_inj _ _ u6 p p₀ hp hp₀ (hid.trans (prodChain_id _ _ _ hchain))
    subst hpp
    simp only [prodChain, Option.bind_eq_some, Option.map_eq_some'] at hchain
    obtain ⟨sc, hsc, c, hc, rfl⟩ := hchain
    unfold lookupSubcategory at hsc
    unfold lookupCategory at hc
    constructor
    · show (d.subcategories.find? _).map _ = _
      rw [hsc]
      rfl
    · show ((d.subcategories.find? _).bind _).map _ = _
      rw [hsc, Option.some_bind]
      show (d.categories.find? _).map _ = _
      rw [hc]
      rfl
  · intro r hr cu hcu hid
    have hr' : r ∈ dim_customer_star d := hr
    rw [dim_customer_star_eq d u3 u2 u1] at hr'
    obtain ⟨cu₀, hcu₀, hchain⟩ := List.mem_filterMap.mp hr'
    have hcc : cu = cu₀ :=
      uniqueBy_inj _ _ u7 cu cu₀ hcu hcu₀ (hid.trans (custChain_id _ _ _ hchain))
    subst hcc
    simp only [custChain, Option.bind_eq_some, Option.map_eq_some'] at hchain
    obtain ⟨ci, hci, rg, hrg, co, hco, rfl⟩ := hchain
    unfold lookupCity at hci
    unfold lookupRegion at hrg
    unfold lookupCountry at hco
    refine ⟨?_, ?_, ?_⟩
    · show (d.cities.find? _).map _ = _
      rw [hci]
      rfl
    · show ((d.cities.find? _).bind _).map _ = _
      rw [hci, Option.some_bind]
      show (d.regions.find? _).map _ = _
      rw [hrg]
      rfl
    · show (((d.cities.find? _).bind _).bind _).map _ = _
      rw [hci, Option.some_bind]
      show ((d.regions.find? _).bind _).map _ = _
      rw [hrg, Option.some_bind]
      show (d.countries.find? _).map _ = _
      rw [hco]
      rfl
  · intro r hr sp hsp hid
    have hr' : r ∈ dim_salesperson_star d := hr
    rw [dim_salesperson_star_eq d u2 u1] at hr'
    obtain ⟨sp₀, hsp₀, hchain⟩ := List.mem_filterMap.mp hr'
    have hss : sp = sp₀ :=
      uniqueBy_inj _ _ u8 sp sp₀ hsp hsp₀ (hid.trans (spChain_id _ _ _ hchain))
    subst hss
    simp only [spChain, Option.bind_eq_some, Option.map_eq_some'] at hchain
    obtain ⟨rg, hrg, co, hco, rfl⟩ := hchain
    unfold lookupRegion at hrg
    unfold lookupCountry at hco
    constructor
    · show (d.regions.find? _).map _ = _
      rw [hrg]
      rfl
    · show ((d.regions.find? _).bind _).map _ = _
      rw [hrg, Option.some_bind]
      show (d.countries.find? _).map _ = _
      rw [hco]
      rfl

/-! ## Concrete witness data -/

/-- Minimal well-formed flat dataset used by the closed witnesses. -/
def tinyData : FlatData :=
  { countries := [⟨1, "Країна"⟩]
    regions := [⟨1, "Регіон", 1⟩]
    cities := [⟨1, "Місто", 1⟩]
    categories := [⟨1, "Категорія"⟩]
    subcategories := [⟨1, "Підкатегорія", 1⟩]
    products := [⟨1, "Товар", "PRD00001", 1, 10⟩]
    customers := [⟨1, "Клієнт", "a@b", "123", 1, "2023-01-02"⟩]
    sales_people := [⟨1, "Продавець", "2021-05-05", 1⟩]
    time_rows := [⟨1, ⟨2022, 1, 1⟩, 2022, "Q1", 1, "January", 1, 6, "Saturday"⟩]
    sales := [⟨1, 1, 1, 1, 1, 2, 10, 0, 20⟩] }

/-- An empty (fresh) star store. -/
def emptyStar : StarStore := ⟨[], [], [], [], [], []⟩

/-- An empty (fresh) snowflake store. -/
def emptySnow : SnowStore := ⟨[], [], [], [], [], [], [], [], [], [], []⟩

theorem tinyData_wf : WellFormed tinyData := by
  unfold WellFormed uniqueBy
  decide

/-- Witness: C2 instantiated on the concrete one-row dataset. -/
theorem c2_denormalization_correct_witness :
    WellFormed tinyData ∧
    (∀ r ∈ (buildStar tinyData emptyStar).dim_product,
      ∀ p ∈ (buildSnow tinyData emptySnow).dim_product,
      p.product_id = r.product_id →
      ((buildSnow tinyData emptySnow).dim_subcategory.find?
          (fun sc => sc.subcategory_id == p.subcategory_id)).map
        Subcategory.subcategory_name = some r.subcategory_name ∧
      (((buildSnow tinyData emptySnow).dim_subcategory.find?
          (fun sc => sc.subcategory_id == p.subcategory_id)).bind
        (fun sc => (buildSnow tinyData emptySnow).dim_category.find?
          (fun c => c.category_id == sc.category_id))).map
        Category.category_name = some r.category_name) :=
  ⟨tinyData_wf,
    (c2_denormalization_correct tinyData emptyStar emptySnow tinyData_wf).1⟩

/-! ## The analytical query suite (`get_analytical_queries`), embedded

Each SQL query is embedded as the nested-loop join it denotes, followed by
SQL `GROUP BY` aggregation (one output row per distinct key). The final
`ORDER BY`/`LIMIT` clauses are deterministic post-processing of the
aggregate row collection and are dropped here: the cross-schema claim
compares results projected to the same column set and sorted identically,
which is exactly equality of the aggregate collections computed below. -/

def sumQ (l : List ℚ) : ℚ := l.foldr (fun x acc => x + acc) 0

def sumN (l : List Nat) : Nat := l.foldr (fun x acc => x + acc) 0

/-- Distinct values in first-occurrence order (SQL `DISTINCT` / grouping keys). -/
def dedupFirst [DecidableEq κ] : List κ → List κ
  | [] => []
  | a :: as => a :: (dedupFirst as).filter (fun b => b != a)

/-- SQL `GROUP BY`: one group per distinct key, carrying its rows. -/
def groupBy [DecidableEq κ] (key : α → κ) (l : List α) : List (κ × List α) :=
  (dedupFirst (l.map key)).map (fun k => (k, l.filter (fun a => decide (key a = k))))

/-! ### Query 1 — sales by region -/

/-- `SELECT region_name, SUM(total_amount), COUNT(*), AVG(total_amount)
GROUP BY region_name`. -/
def q1Agg (rows : List (String × ℚ)) : List (String × ℚ × Nat × ℚ) :=
  (groupBy Prod.fst rows).map (fun g =>
    let xs := g.2.map Prod.snd
    (g.1, sumQ xs, xs.length, sumQ xs / (xs.length : ℚ)))

/-- Star variant: `sales_facts JOIN dim_customer` (wide). -/
def q1StarRows (st : StarStore) : List (String × ℚ) :=
  st.sales_facts.flatMap (fun f =>
    (st.dim_customer.filter (fun c => c.customer_id == f.customer_id)).map
      (fun c => (c.region_name, f.total_amount)))

def q1Star (st : StarStore) : List (String × ℚ × Nat × ℚ) := q1Agg (q1StarRows st)

/-- Snowflake variant: `sales_facts JOIN dim_customer JOIN dim_city JOIN
dim_region`. -/
def q1SnowRows (sn : SnowStore) : List (String × ℚ) :=
  sn.sales_facts.flatMap (fun f =>
    (sn.dim_customer.filter (fun c => c.customer_id == f.customer_id)).flatMap (fun c =>
      (sn.dim_city.filter (fun ci => ci.city_id == c.city_id)).flatMap (fun ci =>
        (sn.dim_region.filter (fun rg => rg.region_id == ci.region_id)).map
          (fun rg => (rg.region_name, f.total_amount)))))

def q1Snow (sn : SnowStore) : List (String × ℚ × Nat × ℚ) := q1Agg (q1SnowRows sn)

/-! ### Query 2 — top products with category rollup -/

/-- `SELECT product_name, category_name, SUM(total_amount), SUM(quantity)
GROUP BY product_id, product_name, category_name`. -/
def q2Agg (rows : List ((Nat × String × String) × ℚ × Nat)) :
    List (String × String × ℚ × Nat) :=
  (groupBy Prod.fst rows).map (fun g =>
    (g.1.2.1, g.1.2.2, sumQ (g.2.map (fun r => r.2.1)), sumN (g.2.map (fun r => r.2.2))))

/-- Star variant: `sales_facts JOIN dim_product` (wide). -/
def q2StarRows (st : StarStore) : List ((Nat × String × String) × ℚ × Nat) :=
  st.sales_facts.flatMap (fun f =>
    (st.dim_product.filter (fun p => p.product_id == f.product_id)).map
      (fun p => ((p.product_id, p.product_name, p.category_name), f.total_amount, f.quantity)))

def q2Star (st : StarStore) : List (String × String × ℚ × Nat) := q2Agg (q2StarRows st)

/-- Snowflake variant: `sales_facts JOIN dim_product JOIN dim_subcategory
JOIN dim_category`. -/
def q2SnowRows (sn : SnowStore) : List ((Nat × String × String) × ℚ × Nat) :=
  sn.sales_facts.flatMap (fun f =>
    (sn.dim_product.filter (fun p => p.product_id == f.product_id)).flatMap (fun p =>
      (sn.dim_subcategory.filter (fun sc => sc.subcategory_id == p.subcategory_id)).flatMap
        (fun sc =>
          (sn.dim_category.filter (fun c => c.category_id == sc.category_id)).map
            (fun c => ((p.product_id, p.product_name, c.category_name),
              f.total_amount, f.quantity)))))

def q2Snow (sn : SnowStore) : List (String × String × ℚ × Nat) := q2Agg (q2SnowRows sn)

/-! ### Query 3 — monthly trend for 2023 (identical SQL in both variants) -/

/-- `SELECT month, month_name, SUM(total_amount), COUNT(*) FROM sales_facts
JOIN dim_time WHERE year = 2023 GROUP BY month, month_name`. -/
def q3Rows (facts : List Sale) (times : List TimeRow) : List ((Nat × String) × ℚ) :=
  facts.flatMap (fun f =>
    ((times.filter (fun tr => tr.time_id == f.time_id)).filter
        (fun tr => tr.year == 2023)).map
      (fun tr => ((tr.month, tr.month_name), f.total_amount)))

def q3Agg (rows : List ((Nat × String) × ℚ)) : List (Nat × String × ℚ × Nat) :=
  (groupBy Prod.fst rows).map (fun g =>
    (g.1.1, g.1.2, sumQ (g.2.map Prod.snd), g.2.length))

def q3Star (st : StarStore) : List (Nat × String × ℚ × Nat) :=
  q3Agg (q3Rows st.sales_facts st.dim_time)

def q3Snow (sn : SnowStore) : List (Nat × String × ℚ × Nat) :=
  q3Agg (q3Rows sn.sales_facts sn.dim_time)

/-! ### Query 4 — salesperson leaderboard with region rollup -/

/-- `SELECT salesperson_name, region_name, SUM(total_amount), COUNT(*),
AVG(total_amount) GROUP BY salesperson_id, salesperson_name, region_name`. -/
def q4Agg (rows : List ((Nat × String × String) × ℚ)) :
    List (String × String × ℚ × Nat × ℚ) :=
  (groupBy Prod.fst rows).map (fun g =>
    let xs := g.2.map Prod.snd
    (g.1.2.1, g.1.2.2, sumQ xs, xs.length, sumQ xs / (xs.length : ℚ)))

/-- Star variant: `sales_facts JOIN dim_salesperson` (wide). -/
def q4StarRows (st : StarStore) : List ((Nat × String × String) × ℚ) :=
  st.sales_facts.flatMap (fun f =>
    (st.dim_salesperson.filter (fun sp => sp.salesperson_id == f.salesperson_id)).map
      (fun sp => ((sp.salesperson_id, sp.salesperson_name, sp.region_name), f.total_amount)))

def q4Star (st : StarStore) : List (String × String × ℚ × Nat × ℚ) := q4Agg (q4StarRows st)

/-- Snowflake variant: `sales_facts JOIN dim_salesperson JOIN dim_region`. -/
def q4SnowRows (sn : SnowStore) : List ((Nat × String × String) × ℚ) :=
  sn.sales_facts.flatMap (fun f =>
    (sn.dim_salesperson.filter (fun sp => sp.salesperson_id == f.salesperson_id)).flatMap
      (fun sp =>
        (sn.dim_region.filter (fun rg => rg.region_id == sp.region_id)).map
          (fun rg => ((sp.salesperson_id, sp.salesperson_name, rg.region_name),
            f.total_amount))))

def q4Snow (sn : SnowStore) : List (String × String × ℚ × Nat × ℚ) := q4Agg (q4SnowRows sn)

/-! ### Query 5 — category × region × quarter × year with HAVING -/

/-- `SELECT category_name, region_name, quarter, year, SUM(total_amount),
SUM(quantity), AVG(discount), COUNT(DISTINCT customer_id) … WHERE year IN
(2023, 2024) GROUP BY category_name, region_name, quarter, year HAVING
SUM(total_amount) > 10000`. -/
def q5Agg (rows : List ((String × String × String × Nat) × ℚ × Nat × ℚ × Nat)) :
    List ((String × String × String × Nat) × ℚ × Nat × ℚ × Nat) :=
  ((groupBy Prod.fst rows).map (fun g =>
    (g.1, sumQ (g.2.map (fun r => r.2.1)), sumN (g.2.map (fun r => r.2.2.1)),
      sumQ (g.2.map (fun r => r.2.2.2.1)) / (g.2.length : ℚ),
      (dedupFirst (g.2.map (fun r => r.2.2.2.2))).length))).filter
    (fun out => decide (out.2.1 > 10000))

/-- Star variant: `sales_facts JOIN dim_product JOIN dim_customer JOIN
dim_time` (all wide). -/
def q5StarRows (st : StarStore) :
    List ((String × String × String × Nat) × ℚ × Nat × ℚ × Nat) :=
  st.sales_facts.flatMap (fun f =>
    (st.dim_product.filter (fun p => p.product_id == f.product_id)).flatMap (fun p =>
      (st.dim_customer.filter (fun c => c.customer_id == f.customer_id)).flatMap (fun c =>
        ((st.dim_time.filter (fun tr => tr.time_id == f.time_id)).filter
            (fun tr => tr.year == 2023 || tr.year == 2024)).map (fun tr =>
          ((p.category_name, c.region_name, tr.quarter, tr.year),
            f.total_amount, f.quantity, f.discount, f.customer_id)))))

def q5Star (st : StarStore) :
    List ((String × String × String × Nat) × ℚ × Nat × ℚ × Nat) := q5Agg (q5StarRows st)

/-- Snowflake variant: the same query through
`dim_product → dim_subcategory → dim_category` and
`dim_customer → dim_city → dim_region`. -/
def q5SnowRows (sn : SnowStore) :
    List ((String × String × String × Nat) × ℚ × Nat × ℚ × Nat) :=
  sn.sales_facts.flatMap (fun f =>
    (sn.dim_product.filter (fun p => p.product_id == f.product_id)).flatMap (fun p =>
      (sn.dim_subcategory.filter (fun sc => sc.subcategory_id == p.subcategory_id)).flatMap
        (fun sc =>
          (sn.dim_category.filter (fun c => c.category_id == sc.category_id)).flatMap (fun c =>
            (sn.dim_customer.filter (fun cu => cu.customer_id == f.customer_id)).flatMap
              (fun cu =>
                (sn.dim_city.filter (fun ci => ci.city_id == cu.city_id)).flatMap (fun ci =>
                  (sn.dim_region.filter (fun rg => rg.region_id == ci.region_id)).flatMap
                    (fun rg =>
                      ((sn.dim_time.filter (fun tr => tr.time_id == f.time_id)).filter
                          (fun tr => tr.year == 2023 || tr.year == 2024)).map (fun tr =>
                        ((c.category_name, rg.region_name, tr.quarter, tr.year),
                          f.total_amount, f.quantity, f.discount, f.customer_id)))))))))

def q5Snow (sn : SnowStore) :
    List ((String × String × String × Nat) × ℚ × Nat × ℚ × Nat) := q5Agg (q5SnowRows sn)

/-! ## C1 infrastructure: chain totality, star-dimension key uniqueness -/

theorem optToList_flatMap_toList (o : Option α) (g : α → Option β) :
    o.toList.flatMap (fun a => (g a).toList) = (o.bind g).toList := by
  cases o <;> simp

theorem optToList_filter (o : Option α) (p : α → Bool) :
    o.toList.filter p = (Option.filter p o).toList := by
  cases o with
  | none => rfl
  | some a => by_cases h : p a = true <;> simp [Option.filter, h]

theorem custChain_isSome (d : FlatData)
    (hcu : ∀ c ∈ d.customers, (lookupCity d c.city_id).isSome)
    (hci : ∀ ci ∈ d.cities, (lookupRegion d ci.region_id).isSome)
    (hrg : ∀ rg ∈ d.regions, (lookupCountry d rg.country_id).isSome) :
    ∀ cu ∈ d.customers, (custChain d cu).isSome := by
  intro cu hc
  obtain ⟨ci, hci'⟩ := Option.isSome_iff_exists.mp (hcu cu hc)
  obtain ⟨rg, hrg'⟩ := Option.isSome_iff_exists.mp (hci ci (List.mem_of_find?_eq_some hci'))
  obtain ⟨co, hco'⟩ := Option.isSome_iff_exists.mp (hrg rg (List.mem_of_find?_eq_some hrg'))
  simp [custChain, hci', hrg', hco']

theorem prodChain_isSome (d : FlatData)
    (hp : ∀ p ∈ d.products, (lookupSubcategory d p.subcategory_id).isSome)
    (hsc : ∀ sc ∈ d.subcategories, (lookupCategory d sc.category_id).isSome) :
    ∀ p ∈ d.products, (prodChain d p).isSome := by
  intro p hmem
  obtain ⟨sc, hsc'⟩ := Option.isSome_iff_exists.mp (hp p hmem)
  obtain ⟨c, hc'⟩ := Option.isSome_iff_exists.mp (hsc sc (List.mem_of_find?_eq_some hsc'))
  simp [prodChain, hsc', hc']

theorem spChain_isSome (d : FlatData)
    (hsp : ∀ sp ∈ d.sales_people, (lookupRegion d sp.region_id).isSome)
    (hrg : ∀ rg ∈ d.regions, (lookupCountry d rg.country_id).isSome) :
    ∀ sp ∈ d.sales_people, (spChain d sp).isSome := by
  intro sp hmem
  obtain ⟨rg, hrg'⟩ := Option.isSome_iff_exists.mp (hsp sp hmem)
  obtain ⟨co, hco'⟩ := Option.isSome_iff_exists.mp (hrg rg (List.mem_of_find?_eq_some hrg'))
  simp [spChain, hrg', hco']

/-! ## C1: per-query row equality -/

theorem q1_rows_eq (d : FlatData) (s : StarStore) (t : SnowStore) (hwf : WellFormed d) :
    q1StarRows (buildStar d s) = q1SnowRows (buildSnow d t) := by
  obtain ⟨u1, u2, u3, u4, u5, u6, u7, u8, u9, r1, r2, r3, r4, r5, r6, f1, f2, f3, f4⟩ := hwf
  have ucs : uniqueBy StarCustomer.customer_id (dim_customer_star d) := by
    rw [dim_customer_star_eq d u3 u2 u1]
    exact uniqueBy_filterMap _ _ _ _ (fun a b h => custChain_id d a b h) u7
  have htot := custChain_isSome d r5 r2 r1
  show d.sales.flatMap _ = d.sales.flatMap _
  refine List.flatMap_congr (fun f hf => ?_)
  obtain ⟨cu, hcu⟩ := Option.isSome_iff_exists.mp (f3 f hf)
  have hcu' : d.customers.find? (fun a => a.customer_id == f.customer_id) = some cu := hcu
  obtain ⟨ci, hci⟩ := Option.isSome_iff_exists.mp (r5 cu (List.mem_of_find?_eq_some hcu'))
  have hci' : d.cities.find? (fun a => a.city_id == cu.city_id) = some ci := hci
  obtain ⟨rg, hrg⟩ := Option.isSome_iff_exists.mp (r2 ci (List.mem_of_find?_eq_some hci'))
  have hrg' : d.regions.find? (fun a => a.region_id == ci.region_id) = some rg := hrg
  obtain ⟨co, hco⟩ := Option.isSome_iff_exists.mp (r1 rg (List.mem_of_find?_eq_some hrg'))
  have hco' : d.countries.find? (fun a => a.country_id == rg.country_id) = some co := hco
  rw [show (buildStar d s).dim_customer = dim_customer_star d from rfl,
    filter_eq_find?_toList StarCustomer.customer_id _ ucs,
    dim_customer_star_eq d u3 u2 u1,
    find?_filterMap_keyed d.customers (custChain d) Customer.customer_id
      StarCustomer.customer_id (fun a b h => custChain_id d a b h) htot]
  simp only [show (buildSnow d t).dim_customer = d.customers from rfl,
    show (buildSnow d t).dim_city = d.cities from rfl,
    show (buildSnow d t).dim_region = d.regions from rfl,
    filter_eq_find?_toList Customer.customer_id _ u7,
    filter_eq_find?_toList City.city_id _ u3,
    filter_eq_find?_toList Region.region_id _ u2,
    optToList_map, optToList_flatMap_toList]
  simp [hcu', hci', hrg', hco', custChain, lookupCity, lookupRegion, lookupCountry]

/-- Filtering the star `dim_product` by product id is a product lookup
followed by the denormalization chain. -/
theorem star_dim_product_filter (d : FlatData)
    (u4 : uniqueBy Category.category_id d.categories)
    (u5 : uniqueBy Subcategory.subcategory_id d.subcategories)
    (u6 : uniqueBy Product.product_id d.products)
    (r4 : ∀ p ∈ d.products, (lookupSubcategory d p.subcategory_id).isSome)
    (r3 : ∀ sc ∈ d.subcategories, (lookupCategory d sc.category_id).isSome) (k : Nat) :
    (dim_product_star d).filter (fun p => p.product_id == k) =
      ((d.products.find? (fun a => a.product_id == k)).bind (prodChain d)).toList := by
  have ups : uniqueBy StarProduct.product_id (dim_product_star d) := by
    rw [dim_product_star_eq d u5 u4]
    exact uniqueBy_filterMap _ _ _ _ (fun a b h => prodChain_id d a b h) u6
  rw [filter_eq_find?_toList StarProduct.product_id _ ups,
    dim_product_star_eq d u5 u4,
    find?_filterMap_keyed d.products (prodChain d) Product.product_id
      StarProduct.product_id (fun a b h => prodChain_id d a b h) (prodChain_isSome d r4 r3)]

/-- Filtering the star `dim_customer` by customer id is a customer lookup
followed by the denormalization chain. -/
theorem star_dim_customer_filter (d : FlatData)
    (u1 : uniqueBy Country.country_id d.countries)
    (u2 : uniqueBy Region.region_id d.regions)
    (u3 : uniqueBy City.city_id d.cities)
    (u7 : uniqueBy Customer.customer_id d.customers)
    (r5 : ∀ c ∈ d.customers, (lookupCity d c.city_id).isSome)
    (r2 : ∀ ci ∈ d.cities, (lookupRegion d ci.region_id).isSome)
    (r1 : ∀ rg ∈ d.regions, (lookupCountry d rg.country_id).isSome) (k : Nat) :
    (dim_customer_star d).filter (fun c => c.customer_id == k) =
      ((d.customers.find? (fun a => a.customer_id == k)).bind (custChain d)).toList := by
  have ucs : uniqueBy StarCustomer.customer_id (dim_customer_star d) := by
    rw [dim_customer_star_eq d u3 u2 u1]
    exact uniqueBy_filterMap _ _ _ _ (fun a b h => custChain_id d a b h) u7
  rw [filter_eq_find?_toList StarCustomer.customer_id _ ucs,
    dim_customer_star_eq d u3 u2 u1,
    find?_filterMap_keyed d.customers (custChain d) Customer.customer_id
      StarCustomer.customer_id (fun a b h => custChain_id d a b h)
      (custChain_isSome d r5 r2 r1)]

/-- Filtering the star `dim_salesperson` by salesperson id is a
salesperson lookup followed by the denormalization chain. -/
theorem star_dim_salesperson_filter (d : FlatData)
    (u1 : uniqueBy Country.country_id d.countries)
    (u2 : uniqueBy Region.region_id d.regions)
    (u8 : uniqueBy Salesperson.salesperson_id d.sales_people)
    (r6 : ∀ sp ∈ d.sales_people, (lookupRegion d sp.region_id).isSome)
    (r1 : ∀ rg ∈ d.regions, (lookupCountry d rg.country_id).isSome) (k : Nat) :
    (dim_salesperson_star d).filter (fun sp => sp.salesperson_id == k) =
      ((d.sales_people.find? (fun a => a.salesperson_id == k)).bind (spChain d)).toList := by
  have uss : uniqueBy StarSalesperson.salesperson_id (dim_salesperson_star d) := by
    rw [dim_salesperson_star_eq d u2 u1]
    exact uniqueBy_filterMap _ _ _ _ (fun a b h => spChain_id d a b h) u8
  rw [filter_eq_find?_toList StarSalesperson.salesperson_id _ uss,
    dim_salesperson_star_eq d u2 u1,
    find?_filterMap_keyed d.sales_people (spChain d) Salesperson.salesperson_id
      StarSalesperson.salesperson_id (fun a b h => spChain_id d a b h)
      (spChain_isSome d r6 r1)]

theorem q2_rows_eq (d : FlatData) (s : StarStore) (t : SnowStore) (hwf : WellFormed d) :
    q2StarRows (buildStar d s) = q2SnowRows (buildSnow d t) := by
  obtain ⟨u1, u2, u3, u4, u5, u6, u7, u8, u9, r1, r2, r3, r4, r5, r6, f1, f2, f3, f4⟩ := hwf
  show d.sales.flatMap _ = d.sales.flatMap _
  refine List.flatMap_congr (fun f hf => ?_)
  obtain ⟨p, hp⟩ := Option.isSome_iff_exists.mp (f2 f hf)
  have hp' : d.products.find? (fun a => a.product_id == f.product_id) = some p := hp
  obtain ⟨sc, hsc⟩ := Option.isSome_iff_exists.mp (r4 p (List.mem_of_find?_eq_some hp'))
  have hsc' : d.subcategories.find? (fun a => a.subcategory_id == p.subcategory_id) = some sc := hsc
  obtain ⟨c, hc⟩ := Option.isSome_iff_exists.mp (r3 sc (List.mem_of_find?_eq_some hsc'))
  have hc' : d.categories.find? (fun a => a.category_id == sc.category_id) = some c := hc
  rw [show (buildStar d s).dim_product = dim_product_star d from rfl,
    star_dim_product_filter d u4 u5 u6 r4 r3]
  simp only [show (buildSnow d t).dim_product = d.products from rfl,
    show (buildSnow d t).dim_subcategory = d.subcategories from rfl,
    show (buildSnow d t).dim_category = d.categories from rfl,
    filter_eq_find?_toList Product.product_id _ u6,
    filter_eq_find?_toList Subcategory.subcategory_id _ u5,
    filter_eq_find?_toList Category.category_id _ u4,
    optToList_map, optToList_flatMap_toList]
  simp [hp', hsc', hc', prodChain, lookupSubcategory, lookupCategory]

theorem q3_results_eq (d : FlatData) (s : StarStore) (t : SnowStore) :
    q3Star (buildStar d s) = q3Snow (buildSnow d t) := rfl

theorem q4_rows_eq (d : FlatData) (s : StarStore) (t : SnowStore) (hwf : WellFormed d) :
    q4StarRows (buildStar d s) = q4SnowRows (buildSnow d t) := by
  obtain ⟨u1, u2, u3, u4, u5, u6, u7, u8, u9, r1, r2, r3, r4, r5, r6, f1, f2, f3, f4⟩ := hwf
  show d.sales.flatMap _ = d.sales.flatMap _
  refine List.flatMap_congr (fun f hf => ?_)
  obtain ⟨sp, hsp⟩ := Option.isSome_iff_exists.mp (f4 f hf)
  have hsp' : d.sales_people.find? (fun a => a.salesperson_id == f.salesperson_id) = some sp := hsp
  obtain ⟨rg, hrg⟩ := Option.isSome_iff_exists.mp (r6 sp (List.mem_of_find?_eq_some hsp'))
  have hrg' : d.regions.find? (fun a => a.region_id == sp.region_id) = some rg := hrg
  obtain ⟨co, hco⟩ := Option.isSome_iff_exists.mp (r1 rg (List.mem_of_find?_eq_some hrg'))
  have hco' : d.countries.find? (fun a => a.country_id == rg.country_id) = some co := hco
  rw [show (buildStar d s).dim_salesperson = dim_salesperson_star d from rfl,
    star_dim_salesperson_filter d u1 u2 u8 r6 r1]
  simp only [show (buildSnow d t).dim_salesperson = d.sales_people from rfl,
    show (buildSnow d t).dim_region = d.regions from rfl,
    filter_eq_find?_toList Salesperson.salesperson_id _ u8,
    filter_eq_find?_toList Region.region_id _ u2,
    optToList_map, optToList_flatMap_toList]
  simp [hsp', hrg', hco', spChain, lookupRegion, lookupCountry]

theorem q5_rows_eq (d : FlatData) (s : StarStore) (t : SnowStore) (hwf : WellFormed d) :
    q5StarRows (buildStar d s) = q5SnowRows (buildSnow d t) := by
  obtain ⟨u1, u2, u3, u4, u5, u6, u7, u8, u9, r1, r2, r3, r4, r5, r6, f1, f2, f3, f4⟩ := hwf
  show d.sales.flatMap _ = d.sales.flatMap _
  refine List.flatMap_congr (fun f hf => ?_)
  obtain ⟨p, hp⟩ := Option.isSome_iff_exists.mp (f2 f hf)
  have hp' : d.products.find? (fun a => a.product_id == f.product_id) = some p := hp
  obtain ⟨sc, hsc⟩ := Option.isSome_iff_exists.mp (r4 p (List.mem_of_find?_eq_some hp'))
  have hsc' : d.subcategories.find? (fun a => a.subcategory_id == p.subcategory_id) = some sc := hsc
  obtain ⟨c, hc⟩ := Option.isSome_iff_exists.mp (r3 sc (List.mem_of_find?_eq_some hsc'))
  have hc' : d.categories.find? (fun a => a.category_id == sc.category_id) = some c := hc
  obtain ⟨cu, hcu⟩ := Option.isSome_iff_exists.mp (f3 f hf)
  have hcu' : d.customers.find? (fun a => a.customer_id == f.customer_id) = some cu := hcu
  obtain ⟨ci, hci⟩ := Option.isSome_iff_exists.mp (r5 cu (List.mem_of_find?_eq_some hcu'))
  have hci' : d.cities.find? (fun a => a.city_id == cu.city_id) = some ci := hci
  obtain ⟨rg, hrg⟩ := Option.isSome_iff_exists.mp (r2 ci (List.mem_of_find?_eq_some hci'))
  have hrg' : d.regions.find? (fun a => a.region_id == ci.region_id) = some rg := hrg
  obtain ⟨co, hco⟩ := Option.isSome_iff_exists.mp (r1 rg (List.mem_of_find?_eq_some hrg'))
  have hco' : d.countries.find? (fun a => a.country_id == rg.country_id) = some co := hco
  obtain ⟨t0, ht⟩ := Option.isSome_iff_exists.mp (f1 f hf)
  have ht' : d.time_rows.find? (fun a => a.time_id == f.time_id) = some t0 := ht
  simp only [show (buildStar d s).dim_product = dim_product_star d from rfl,
    show (buildStar d s).dim_customer = dim_customer_star d from rfl,
    show (buildStar d s).dim_time = d.time_rows from rfl,
    star_dim_product_filter d u4 u5 u6 r4 r3,
    star_dim_customer_filter d u1 u2 u3 u7 r5 r2 r1,
    filter_eq_find?_toList TimeRow.time_id _ u9,
    optToList_filter, optToList_map, optToList_flatMap_toList]
  simp only [show (buildSnow d t).dim_product = d.products from rfl,
    show (buildSnow d t).dim_subcategory = d.subcategories from rfl,
    show (buildSnow d t).dim_category = d.categories from rfl,
    show (buildSnow d t).dim_customer = d.customers from rfl,
    show (buildSnow d t).dim_city = d.cities from rfl,
    show (buildSnow d t).dim_region = d.regions from rfl,
    show (buildSnow d t).dim_time = d.time_rows from rfl,
    filter_eq_find?_toList Product.product_id _ u6,
    filter_eq_find?_toList Subcategory.subcategory_id _ u5,
    filter_eq_find?_toList Category.category_id _ u4,
    filter_eq_find?_toList Customer.customer_id _ u7,
    filter_eq_find?_toList City.city_id _ u3,
    filter_eq_find?_toList Region.region_id _ u2,
    filter_eq_find?_toList TimeRow.time_id _ u9,
    optToList_filter, optToList_map, optToList_flatMap_toList]
  by_cases hy : (t0.year == 2023 || t0.year == 2024) = true <;>
    simp [hp', hsc', hc', hcu', hci', hrg', hco', ht', prodChain, custChain,
      lookupSubcategory, lookupCategory, lookupCity, lookupRegion, lookupCountry,
      Option.filter, hy]

/-- C1: for every query pair in the comparator's fixed five-entry suite,
the star variant run on the star store and the snowflake variant run on
the snowflake store — both stores built from the same well-formed flat
dataset — produce the same aggregate result rows (so, projected to the
same column set and sorted identically, they are row-for-row identical). -/
theorem c1_query_suite_equivalent (d : FlatData) (s : StarStore) (t : SnowStore)
    (hwf : WellFormed d) :
    q1Star (buildStar d s) = q1Snow (buildSnow d t) ∧
    q2Star (buildStar d s) = q2Snow (buildSnow d t) ∧
    q3Star (buildStar d s) = q3Snow (buildSnow d t) ∧
    q4Star (buildStar d s) = q4Snow (buildSnow d t) ∧
    q5Star (buildStar d s) = q5Snow (buildSnow d t) :=
  ⟨congrArg q1Agg (q1_rows_eq d s t hwf),
   congrArg q2Agg (q2_rows_eq d s t hwf),
   q3_results_eq d s t,
   congrArg q4Agg (q4_rows_eq d s t hwf),
   congrArg q5Agg (q5_rows_eq d s t hwf)⟩

/-- Witness: C1 instantiated on the concrete one-row dataset and fresh
stores. -/
theorem c1_query_suite_equivalent_witness :
    WellFormed tinyData ∧
    (q1Star (buildStar tinyData emptyStar) = q1Snow (buildSnow tinyData emptySnow) ∧
     q2Star (buildStar tinyData emptyStar) = q2Snow (buildSnow tinyData emptySnow) ∧
     q3Star (buildStar tinyData emptyStar) = q3Snow (buildSnow tinyData emptySnow) ∧
     q4Star (buildStar tinyData emptyStar) = q4Snow (buildSnow tinyData emptySnow) ∧
     q5Star (buildStar tinyData emptyStar) = q5Snow (buildSnow tinyData emptySnow)) :=
  ⟨tinyData_wf, c1_query_suite_equivalent tinyData emptyStar emptySnow tinyData_wf⟩

/-! ## C4/C5 infrastructure: properties of the generated tables -/

theorem uniqueBy_idRange (mk : Nat → α) (key : α → Nat) (n : Nat)
    (hkey : ∀ j, key (mk j) = j + 1) : uniqueBy key ((List.range n).map mk) := by
  rw [uniqueBy, List.pairwise_map]
  refine List.Pairwise.imp ?_ (List.pairwise_lt_range n)
  intro a b hab
  rw [hkey a, hkey b]
  omega

theorem find?_key_isSome_of_exists (l : List α) (key : α → Nat) (k : Nat)
    (h : ∃ a ∈ l, key a = k) : (l.find? (fun a => key a == k)).isSome := by
  rw [List.find?_isSome]
  obtain ⟨a, ha, hk⟩ := h
  exact ⟨a, ha, by simp [hk]⟩

theorem idRange_covers (mk : Nat → α) (key : α → Nat) (n : Nat)
    (hkey : ∀ j, key (mk j) = j + 1) (k : Nat) (h1 : 1 ≤ k) (h2 : k ≤ n) :
    ∃ a ∈ (List.range n).map mk, key a = k := by
  refine ⟨mk (k - 1), List.mem_map.mpr ⟨k - 1, List.mem_range.mpr (by omega), rfl⟩, ?_⟩
  rw [hkey]
  omega

theorem subcat_lookup_isSome : ∀ m : Nat, m < 24 →
    (generate_subcategories.find? (fun a => a.subcategory_id == m + 1)).isSome := by decide

theorem subcat_cat_isSome : ∀ sc ∈ generate_subcategories,
    (generate_categories.find? (fun c => c.category_id == sc.category_id)).isSome := by decide

/-- Every generated product's subcategory reference resolves. -/
theorem gen_prod_subcat_isSome (o : GenOracles) :
    ∀ p ∈ (generate_all o).products,
      (lookupSubcategory (generate_all o) p.subcategory_id).isSome := by
  intro p hp
  obtain ⟨j, _, rfl⟩ := List.mem_map.mp hp
  show (generate_subcategories.find? _).isSome
  have h24 : generate_subcategories.length = 24 := rfl
  show (generate_subcategories.find?
    (fun a => a.subcategory_id == 1 + o.prodSub (j + 1) % generate_subcategories.length)).isSome
  rw [h24, Nat.add_comm 1 (o.prodSub (j + 1) % 24)]
  exact subcat_lookup_isSome _ (Nat.mod_lt _ (by norm_num))

/-- Every generated subcategory's category reference resolves. -/
theorem gen_subcat_cat_isSome (o : GenOracles) :
    ∀ sc ∈ (generate_all o).subcategories,
      (lookupCategory (generate_all o) sc.category_id).isSome := by
  intro sc hsc
  exact subcat_cat_isSome sc hsc

/-- Every generated customer's city reference resolves. -/
theorem gen_cust_city_isSome (o : GenOracles) :
    ∀ c ∈ (generate_all o).customers, (lookupCity (generate_all o) c.city_id).isSome := by
  intro c hc
  obtain ⟨j, _, rfl⟩ := List.mem_map.mp hc
  apply find?_key_isSome_of_exists _ City.city_id
  refine idRange_covers
    (fun j => ⟨j + 1, cityNamesGen.getD j "", 1 + o.cityReg (j + 1) % NUM_REGIONS⟩)
    City.city_id NUM_CITIES (fun _ => rfl) _ (Nat.le_add_right 1 _) ?_
  show 1 + o.custCity (j + 1) % NUM_CITIES ≤ NUM_CITIES
  have := Nat.mod_lt (o.custCity (j + 1)) (show 0 < NUM_CITIES by decide)
  omega

/-- Every generated city's region reference resolves. -/
theorem gen_city_region_isSome (o : GenOracles) :
    ∀ ci ∈ (generate_all o).cities, (lookupRegion (generate_all o) ci.region_id).isSome := by
  intro ci hci
  obtain ⟨j, _, rfl⟩ := List.mem_map.mp hci
  apply find?_key_isSome_of_exists _ Region.region_id
  refine idRange_covers
    (fun j => ⟨j + 1, regionNamesGen.getD j "" ++ " область", 1⟩)
    Region.region_id NUM_REGIONS (fun _ => rfl) _ (Nat.le_add_right 1 _) ?_
  show 1 + o.cityReg (j + 1) % NUM_REGIONS ≤ NUM_REGIONS
  have := Nat.mod_lt (o.cityReg (j + 1)) (show 0 < NUM_REGIONS by decide)
  omega

/-- Every generated salesperson's region reference resolves. -/
theorem gen_sp_region_isSome (o : GenOracles) :
    ∀ sp ∈ (generate_all o).sales_people,
      (lookupRegion (generate_all o) sp.region_id).isSome := by
  intro sp hsp
  obtain ⟨j, _, rfl⟩ := List.mem_map.mp hsp
  apply find?_key_isSome_of_exists _ Region.region_id
  refine idRange_covers
    (fun j => ⟨j + 1, regionNamesGen.getD j "" ++ " область", 1⟩)
    Region.region_id NUM_REGIONS (fun _ => rfl) _ (Nat.le_add_right 1 _) ?_
  show 1 + o.spReg (j + 1) % NUM_REGIONS ≤ NUM_REGIONS
  have := Nat.mod_lt (o.spReg (j + 1)) (show 0 < NUM_REGIONS by decide)
  omega

/-- Every generated region's country reference resolves. -/
theorem gen_region_country_isSome (o : GenOracles) :
    ∀ rg ∈ (generate_all o).regions,
      (lookupCountry (generate_all o) rg.country_id).isSome := by
  intro rg hrg
  obtain ⟨j, _, rfl⟩ := List.mem_map.mp hrg
  apply find?_key_isSome_of_exists _ Country.country_id
  exact idRange_covers (fun j => ⟨j + 1, countryNamesGen.getD j ""⟩)
    Country.country_id 3 (fun _ => rfl) 1 le_rfl (by norm_num)

/-- Products whose chain resolves appear in the star `dim_product`. -/
theorem dim_product_star_covers (d : FlatData)
    (h1 : ∀ p ∈ d.products, (lookupSubcategory d p.subcategory_id).isSome)
    (h2 : ∀ sc ∈ d.subcategories, (lookupCategory d sc.category_id).isSome) :
    ∀ p ∈ d.products, ∃ r ∈ dim_product_star d, r.product_id = p.product_id := by
  intro p hp
  obtain ⟨sc, hsc⟩ := Option.isSome_iff_exists.mp (h1 p hp)
  obtain ⟨c, hc⟩ := Option.isSome_iff_exists.mp (h2 sc (List.mem_of_find?_eq_some hsc))
  refine ⟨{ product_id := p.product_id,
            product_name := p.product_name,
            product_code := p.product_code,
            unit_price := p.unit_price,
            subcategory_name := sc.subcategory_name,
            category_name := c.category_name }, ?_, rfl⟩
  have hsc2 := List.find?_some hsc
  have hc2 := List.find?_some hc
  unfold dim_product_star
  refine List.mem_flatMap.mpr ⟨p, hp, ?_⟩
  refine List.mem_flatMap.mpr
    ⟨sc, List.mem_filter.mpr ⟨List.mem_of_find?_eq_some hsc, hsc2⟩, ?_⟩
  exact List.mem_map.mpr
    ⟨c, List.mem_filter.mpr ⟨List.mem_of_find?_eq_some hc, hc2⟩, rfl⟩

/-- Customers whose chain resolves appear in the star `dim_customer`. -/
theorem dim_customer_star_covers (d : FlatData)
    (h1 : ∀ c ∈ d.customers, (lookupCity d c.city_id).isSome)
    (h2 : ∀ ci ∈ d.cities, (lookupRegion d ci.region_id).isSome)
    (h3 : ∀ rg ∈ d.regions, (lookupCountry d rg.country_id).isSome) :
    ∀ cu ∈ d.customers, ∃ r ∈ dim_customer_star d, r.customer_id = cu.customer_id := by
  intro cu hcu
  obtain ⟨ci, hci⟩ := Option.isSome_iff_exists.mp (h1 cu hcu)
  obtain ⟨rg, hrg⟩ := Option.isSome_iff_exists.mp (h2 ci (List.mem_of_find?_eq_some hci))
  obtain ⟨co, hco⟩ := Option.isSome_iff_exists.mp (h3 rg (List.mem_of_find?_eq_some hrg))
  refine ⟨{ customer_id := cu.customer_id,
            customer_name := cu.customer_name,
            email := cu.email,
            phone := cu.phone,
            registration_date := cu.registration_date,
            city_name := ci.city_name,
            region_name := rg.region_name,
            country_name := co.country_name }, ?_, rfl⟩
  have hci2 := List.find?_some hci
  have hrg2 := List.find?_some hrg
  have hco2 := List.find?_some hco
  unfold dim_customer_star
  refine List.mem_flatMap.mpr ⟨cu, hcu, ?_⟩
  refine List.mem_flatMap.mpr
    ⟨ci, List.mem_filter.mpr ⟨List.mem_of_find?_eq_some hci, hci2⟩, ?_⟩
  refine List.mem_flatMap.mpr
    ⟨rg, List.mem_filter.mpr ⟨List.mem_of_find?_eq_some hrg, hrg2⟩, ?_⟩
  exact List.mem_map.mpr
    ⟨co, List.mem_filter.mpr ⟨List.mem_of_find?_eq_some hco, hco2⟩, rfl⟩

/-- Salespeople whose chain resolves appear in the star `dim_salesperson`. -/
theorem dim_salesperson_star_covers (d : FlatData)
    (h1 : ∀ sp ∈ d.sales_people, (lookupRegion d sp.region_id).isSome)
    (h2 : ∀ rg ∈ d.regions, (lookupCountry d rg.country_id).isSome) :
    ∀ sp ∈ d.sales_people,
      ∃ r ∈ dim_salesperson_star d, r.salesperson_id = sp.salesperson_id := by
  intro sp hsp
  obtain ⟨rg, hrg⟩ := Option.isSome_iff_exists.mp (h1 sp hsp)
  obtain ⟨co, hco⟩ := Option.isSome_iff_exists.mp (h2 rg (List.mem_of_find?_eq_some hrg))
  refine ⟨{ salesperson_id := sp.salesperson_id,
            salesperson_name := sp.salesperson_name,
            hire_date := sp.hire_date,
            region_name := rg.region_name,
            country_name := co.country_name }, ?_, rfl⟩
  have hrg2 := List.find?_some hrg
  have hco2 := List.find?_some hco
  unfold dim_salesperson_star
  refine List.mem_flatMap.mpr ⟨sp, hsp, ?_⟩
  refine List.mem_flatMap.mpr
    ⟨rg, List.mem_filter.mpr ⟨List.mem_of_find?_eq_some hrg, hrg2⟩, ?_⟩
  exact List.mem_map.mpr
    ⟨co, List.mem_filter.mpr ⟨List.mem_of_find?_eq_some hco, hco2⟩, rfl⟩


/-- Projection equations for the generated dataset and the two stores,
used as rewrite rules so that unification never has to evaluate the
generated row ranges. -/
theorem generate_all_sales_eq (o : GenOracles) :
    (generate_all o).sales = generate_sales_data generate_time_data
      (generate_products o.prodSub o.prodName o.prodPrice)
      (generate_customer_data o.custCity o.custName o.custEmail o.custPhone o.custRegDate)
      (generate_sales_people_data o.spReg o.spName o.spHire)
      o.pickT o.pickP o.pickC o.pickS o.qty o.disc := by
  conv_lhs => rw [generate_all]

theorem generate_all_time_rows_eq (o : GenOracles) :
    (generate_all o).time_rows = generate_time_data := by
  conv_lhs => rw [generate_all]

theorem generate_all_products_eq (o : GenOracles) :
    (generate_all o).products = generate_products o.prodSub o.prodName o.prodPrice := by
  conv_lhs => rw [generate_all]

theorem generate_all_customers_eq (o : GenOracles) :
    (generate_all o).customers =
      generate_customer_data o.custCity o.custName o.custEmail o.custPhone o.custRegDate := by
  conv_lhs => rw [generate_all]

theorem generate_all_sales_people_eq (o : GenOracles) :
    (generate_all o).sales_people = generate_sales_people_data o.spReg o.spName o.spHire := by
  conv_lhs => rw [generate_all]

theorem buildSnow_sales_facts (d : FlatData) (t : SnowStore) :
    (buildSnow d t).sales_facts = d.sales := rfl

theorem buildSnow_dim_time (d : FlatData) (t : SnowStore) :
    (buildSnow d t).dim_time = d.time_rows := rfl

theorem buildSnow_dim_product (d : FlatData) (t : SnowStore) :
    (buildSnow d t).dim_product = d.products := rfl

theorem buildSnow_dim_customer (d : FlatData) (t : SnowStore) :
    (buildSnow d t).dim_customer = d.customers := rfl

theorem buildSnow_dim_salesperson (d : FlatData) (t : SnowStore) :
    (buildSnow d t).dim_salesperson = d.sales_people := rfl

theorem buildStar_sales_facts (d : FlatData) (s : StarStore) :
    (buildStar d s).sales_facts = d.sales := rfl

theorem buildStar_dim_time (d : FlatData) (s : StarStore) :
    (buildStar d s).dim_time = d.time_rows := rfl

theorem buildStar_dim_product (d : FlatData) (s : StarStore) :
    (buildStar d s).dim_product = dim_product_star d := rfl

theorem buildStar_dim_customer (d : FlatData) (s : StarStore) :
    (buildStar d s).dim_customer = dim_customer_star d := rfl

theorem buildStar_dim_salesperson (d : FlatData) (s : StarStore) :
    (buildStar d s).dim_salesperson = dim_salesperson_star d := rfl

/-- C4: in the dataset produced by one generator run (sampling oracles in
place of the fixed seed, constrained to sample rows of the generated
frames), every foreign key of every fact row resolves to an existing
dimension row — in the flat dataset, in the snowflake store built from
it, and in the star store built from it. -/
theorem c4_referential_integrity (o : GenOracles)
    (hT : ∀ i, o.pickT i ∈ generate_time_data)
    (hP : ∀ i, o.pickP i ∈ generate_products o.prodSub o.prodName o.prodPrice)
    (hC : ∀ i, o.pickC i ∈
      generate_customer_data o.custCity o.custName o.custEmail o.custPhone o.custRegDate)
    (hS : ∀ i, o.pickS i ∈ generate_sales_people_data o.spReg o.spName o.spHire) :
    (∀ f ∈ (generate_all o).sales,
      (∃ tr ∈ (generate_all o).time_rows, tr.time_id = f.time_id) ∧
      (∃ p ∈ (generate_all o).products, p.product_id = f.product_id) ∧
      (∃ c ∈ (generate_all o).customers, c.customer_id = f.customer_id) ∧
      (∃ sp ∈ (generate_all o).sales_people, sp.salesperson_id = f.salesperson_id)) ∧
    (∀ t : SnowStore, ∀ f ∈ (buildSnow (generate_all o) t).sales_facts,
      (∃ tr ∈ (buildSnow (generate_all o) t).dim_time, tr.time_id = f.time_id) ∧
      (∃ p ∈ (buildSnow (generate_all o) t).dim_product, p.product_id = f.product_id) ∧
      (∃ c ∈ (buildSnow (generate_all o) t).dim_customer, c.customer_id = f.customer_id) ∧
      (∃ sp ∈ (buildSnow (generate_all o) t).dim_salesperson,
        sp.salesperson_id = f.salesperson_id)) ∧
    (∀ s : StarStore, ∀ f ∈ (buildStar (generate_all o) s).sales_facts,
      (∃ tr ∈ (buildStar (generate_all o) s).dim_time, tr.time_id = f.time_id) ∧
      (∃ p ∈ (buildStar (generate_all o) s).dim_product, p.product_id = f.product_id) ∧
      (∃ c ∈ (buildStar (generate_all o) s).dim_customer, c.customer_id = f.customer_id) ∧
      (∃ sp ∈ (buildStar (generate_all o) s).dim_salesperson,
        sp.salesperson_id = f.salesperson_id)) := by
  have hflat : ∀ f ∈ (generate_all o).sales,
      (∃ tr ∈ (generate_all o).time_rows, tr.time_id = f.time_id) ∧
      (∃ p ∈ (generate_all o).products, p.product_id = f.product_id) ∧
      (∃ c ∈ (generate_all o).customers, c.customer_id = f.customer_id) ∧
      (∃ sp ∈ (generate_all o).sales_people, sp.salesperson_id = f.salesperson_id) := by
    simp only [generate_all_sales_eq, generate_all_time_rows_eq, generate_all_products_eq,
      generate_all_customers_eq, generate_all_sales_people_eq]
    intro f hf
    unfold generate_sales_data at hf
    obtain ⟨j, hj, rfl⟩ := List.mem_map.mp hf
    exact ⟨⟨o.pickT (j + 1), hT (j + 1), rfl⟩, ⟨o.pickP (j + 1), hP (j + 1), rfl⟩,
      ⟨o.pickC (j + 1), hC (j + 1), rfl⟩, ⟨o.pickS (j + 1), hS (j + 1), rfl⟩⟩
  refine ⟨hflat, ?_, ?_⟩
  · intro t f hf
    rw [buildSnow_sales_facts] at hf
    simp only [buildSnow_dim_time, buildSnow_dim_product, buildSnow_dim_customer,
      buildSnow_dim_salesperson]
    exact hflat f hf
  intro s f hf
  rw [buildStar_sales_facts] at hf
  obtain ⟨h1, h2, h3, h4⟩ := hflat f hf
  simp only [buildStar_dim_time, buildStar_dim_product, buildStar_dim_customer,
    buildStar_dim_salesperson]
  refine ⟨h1, ?_, ?_, ?_⟩
  · obtain ⟨p, hp, hpid⟩ := h2
    obtain ⟨r, hr, hrid⟩ := dim_product_star_covers (generate_all o)
      (gen_prod_subcat_isSome o) (gen_subcat_cat_isSome o) p hp
    exact ⟨r, hr, hrid.trans hpid⟩
  · obtain ⟨c, hc, hcid⟩ := h3
    obtain ⟨r, hr, hrid⟩ := dim_customer_star_covers (generate_all o)
      (gen_cust_city_isSome o) (gen_city_region_isSome o) (gen_region_country_isSome o) c hc
    exact ⟨r, hr, hrid.trans hcid⟩
  · obtain ⟨sp, hsp, hspid⟩ := h4
    obtain ⟨r, hr, hrid⟩ := dim_salesperson_star_covers (generate_all o)
      (gen_sp_region_isSome o) (gen_region_country_isSome o) sp hsp
    exact ⟨r, hr, hrid.trans hspid⟩

/-! ## C5: fact-row arithmetic invariants -/

theorem floor_le_pyRoundInt (x : ℚ) : ⌊x⌋ ≤ pyRoundInt x := by
  unfold pyRoundInt
  dsimp only
  split
  · exact le_refl _
  · split
    · omega
    · split <;> omega

theorem pyRoundInt_le_ceil (x : ℚ) : pyRoundInt x ≤ ⌈x⌉ := by
  unfold pyRoundInt
  dsimp only
  split
  · exact Int.floor_le_ceil x
  · rename_i h1
    push_neg at h1
    have hx : (⌊x⌋ : ℚ) < x := by
      have : (0 : ℚ) < 1/2 := by norm_num
      linarith
    have hlt : ⌊x⌋ < ⌈x⌉ := by
      have := Int.lt_ceil.mpr hx
      omega
    split
    · omega
    · split <;> omega

theorem pyRoundTo_nonneg (n : Nat) (x : ℚ) (h : 0 ≤ x) : 0 ≤ pyRoundTo n x := by
  unfold pyRoundTo
  apply div_nonneg _ (by positivity)
  have h0 : (0 : ℤ) ≤ ⌊x * 10 ^ n⌋ := Int.floor_nonneg.mpr (by positivity)
  have := floor_le_pyRoundInt (x * 10 ^ n)
  exact_mod_cast le_trans h0 this

theorem pyRoundTo3_le_fifth (x : ℚ) (h : x ≤ 1/5) : pyRoundTo 3 x ≤ 1/5 := by
  unfold pyRoundTo
  rw [div_le_iff₀ (by norm_num)]
  have hceil : ⌈x * 10 ^ 3⌉ ≤ 200 := Int.ceil_le.mpr (by norm_num; linarith)
  have := pyRoundInt_le_ceil (x * 10 ^ 3)
  have h200 : pyRoundInt (x * 10 ^ 3) ≤ 200 := le_trans this hceil
  calc (pyRoundInt (x * 10 ^ 3) : ℚ) ≤ 200 := by exact_mod_cast h200
    _ = 1/5 * 10 ^ 3 := by norm_num

/-- C5: every generated fact row has quantity ≥ 1, unit price equal to
the referenced product's unit price, discount in [0, 0.2], and
total amount equal to quantity × unit_price × (1 − discount) rounded to
two decimals (Python banker's rounding, rationals in place of floats). -/
theorem c5_fact_row_arithmetic (o : GenOracles)
    (hP : ∀ i, o.pickP i ∈ generate_products o.prodSub o.prodName o.prodPrice)
    (hD : ∀ i, 0 ≤ o.disc i ∧ o.disc i ≤ 1/5) :
    ∀ f ∈ (generate_all o).sales,
      1 ≤ f.quantity ∧
      (∀ p ∈ (generate_all o).products, p.product_id = f.product_id →
        f.unit_price = p.unit_price) ∧
      0 ≤ f.discount ∧ f.discount ≤ 1/5 ∧
      f.total_amount = pyRoundTo 2 (f.quantity * f.unit_price * (1 - f.discount)) := by
  have huniq : uniqueBy Product.product_id
      (generate_products o.prodSub o.prodName o.prodPrice) :=
    uniqueBy_idRange _ _ _ (fun _ => rfl)
  simp only [generate_all_sales_eq, generate_all_products_eq]
  intro f hf
  unfold generate_sales_data at hf
  obtain ⟨j, hj, rfl⟩ := List.mem_map.mp hf
  refine ⟨Nat.le_add_right 1 _, ?_, ?_, ?_, rfl⟩
  · intro p hp hid
    have : p = o.pickP (j + 1) := uniqueBy_inj _ _ huniq _ _ hp (hP (j + 1)) hid
    rw [this]
  · exact pyRoundTo_nonneg 3 _ (hD (j + 1)).1
  · exact pyRoundTo3_le_fifth _ (hD (j + 1)).2

/-! ## Concrete oracles for the generator witnesses -/

/-- The first generated time row (2022-01-01, a Saturday). -/
def firstTimeRow : TimeRow := mkTimeRow 1 ⟨2022, 1, 1⟩

/-- The product generated at index 0 under all-zero oracles. -/
def firstProductZ : Product :=
  { product_id := 1, product_name := "", product_code := "PRD" ++ pad5 1,
    subcategory_id := 1 + 0 % generate_subcategories.length,
    unit_price := pyRoundTo 2 0 }

/-- The customer generated at index 0 under all-zero oracles. -/
def firstCustomerZ : Customer :=
  ⟨1, "", "", "", 1 + 0 % NUM_CITIES, ""⟩

/-- The salesperson generated at index 0 under all-zero oracles. -/
def firstSalespersonZ : Salesperson := ⟨1, "", "", 1 + 0 % NUM_REGIONS⟩

/-- All-zero oracles: every random draw is 0, every faker string empty,
every sample the first row of its frame. -/
def oracleZero : GenOracles :=
  { cityReg := fun _ => 0
    prodSub := fun _ => 0
    prodName := fun _ => ""
    prodPrice := fun _ => 0
    custCity := fun _ => 0
    custName := fun _ => ""
    custEmail := fun _ => ""
    custPhone := fun _ => ""
    custRegDate := fun _ => ""
    spReg := fun _ => 0
    spName := fun _ => ""
    spHire := fun _ => ""
    pickT := fun _ => firstTimeRow
    pickP := fun _ => firstProductZ
    pickC := fun _ => firstCustomerZ
    pickS := fun _ => firstSalespersonZ
    qty := fun _ => 0
    disc := fun _ => 0 }

theorem oracleZero_pickT_mem : ∀ i, oracleZero.pickT i ∈ generate_time_data := by
  intro i
  show firstTimeRow ∈ generate_time_data
  rw [show generate_time_data = firstTimeRow :: timeGo 1099 (nextDay ⟨2022, 1, 1⟩) 2 from rfl]
  exact List.mem_cons_self _ _

theorem oracleZero_pickP_mem : ∀ i, oracleZero.pickP i ∈
    generate_products oracleZero.prodSub oracleZero.prodName oracleZero.prodPrice := by
  intro i
  show firstProductZ ∈ _
  unfold generate_products
  exact List.mem_map.mpr ⟨0, List.mem_range.mpr (by norm_num [NUM_PRODUCTS]), rfl⟩

theorem oracleZero_pickC_mem : ∀ i, oracleZero.pickC i ∈
    generate_customer_data oracleZero.custCity oracleZero.custName oracleZero.custEmail
      oracleZero.custPhone oracleZero.custRegDate := by
  intro i
  show firstCustomerZ ∈ _
  unfold generate_customer_data
  exact List.mem_map.mpr ⟨0, List.mem_range.mpr (by norm_num [NUM_CUSTOMERS]), rfl⟩

theorem oracleZero_pickS_mem : ∀ i, oracleZero.pickS i ∈
    generate_sales_people_data oracleZero.spReg oracleZero.spName oracleZero.spHire := by
  intro i
  show firstSalespersonZ ∈ _
  unfold generate_sales_people_data
  exact List.mem_map.mpr ⟨0, List.mem_range.mpr (by norm_num [NUM_SALES_PEOPLE]), rfl⟩

/-- Witness: C4 instantiated at the all-zero oracles. -/
theorem c4_referential_integrity_witness :
    (∀ i, oracleZero.pickT i ∈ generate_time_data) ∧
    (∀ f ∈ (generate_all oracleZero).sales,
      (∃ tr ∈ (generate_all oracleZero).time_rows, tr.time_id = f.time_id) ∧
      (∃ p ∈ (generate_all oracleZero).products, p.product_id = f.product_id) ∧
      (∃ c ∈ (generate_all oracleZero).customers, c.customer_id = f.customer_id) ∧
      (∃ sp ∈ (generate_all oracleZero).sales_people,
        sp.salesperson_id = f.salesperson_id)) :=
  ⟨oracleZero_pickT_mem,
    (c4_referential_integrity oracleZero oracleZero_pickT_mem oracleZero_pickP_mem
      oracleZero_pickC_mem oracleZero_pickS_mem).1⟩

/-- Witness: C5 instantiated at the all-zero oracles. -/
theorem c5_fact_row_arithmetic_witness :
    (∀ i, (0 : ℚ) ≤ oracleZero.disc i ∧ oracleZero.disc i ≤ 1/5) ∧
    (∀ f ∈ (generate_all oracleZero).sales,
      1 ≤ f.quantity ∧
      (∀ p ∈ (generate_all oracleZero).products, p.product_id = f.product_id →
        f.unit_price = p.unit_price) ∧
      0 ≤ f.discount ∧ f.discount ≤ 1/5 ∧
      f.total_amount = pyRoundTo 2 (f.quantity * f.unit_price * (1 - f.discount))) := by
  have hD : ∀ i, (0 : ℚ) ≤ oracleZero.disc i ∧ oracleZero.disc i ≤ 1/5 :=
    fun i => ⟨le_refl 0, show (0 : ℚ) ≤ 1/5 by norm_num⟩
  exact ⟨hD, c5_fact_row_arithmetic oracleZero oracleZero_pickP_mem hD⟩

/-! ## The comparator (`performance_comparison.py`)

`get_analytical_queries` returns five (name, star-SQL, snowflake-SQL)
triples; the SQL texts below are byte-for-byte the Python string
literals. -/

def get_analytical_queries : List (String × String × String) :=
  [
   ("Продажі по регіонах",
    "\n                SELECT \n                    dc.region_name,\n                    SUM(sf.total_amount) as total_sales,\n                    COUNT(*) as transaction_count,\n                    AVG(sf.total_amount) as avg_transaction\n                FROM sales_facts sf\n                JOIN dim_customer dc ON sf.customer_id = dc.customer_id\n                GROUP BY dc.region_name\n                ORDER BY total_sales DESC\n                ",
    "\n                SELECT \n                    dr.region_name,\n                    SUM(sf.total_amount) as total_sales,\n                    COUNT(*) as transaction_count,\n                    AVG(sf.total_amount) as avg_transaction\n                FROM sales_facts sf\n                JOIN dim_customer dc ON sf.customer_id = dc.customer_id\n                JOIN dim_city dci ON dc.city_id = dci.city_id\n                JOIN dim_region dr ON dci.region_id = dr.region_id\n                GROUP BY dr.region_name\n                ORDER BY total_sales DESC\n                "),
   ("Топ-10 продуктів",
    "\n                SELECT \n                    dp.product_name,\n                    dp.category_name,\n                    SUM(sf.total_amount) as total_sales,\n                    SUM(sf.quantity) as total_quantity\n                FROM sales_facts sf\n                JOIN dim_product dp ON sf.product_id = dp.product_id\n                GROUP BY dp.product_id, dp.product_name, dp.category_name\n                ORDER BY total_sales DESC\n                LIMIT 10\n                ",
    "\n                SELECT \n                    dp.product_name,\n                    dcat.category_name,\n                    SUM(sf.total_amount) as total_sales,\n                    SUM(sf.quantity) as total_quantity\n                FROM sales_facts sf\n                JOIN dim_product dp ON sf.product_id = dp.product_id\n                JOIN dim_subcategory dsub ON dp.subcategory_id = dsub.subcategory_id\n                JOIN dim_category dcat ON dsub.category_id = dcat.category_id\n                GROUP BY dp.product_id, dp.product_name, dcat.category_name\n                ORDER BY total_sales DESC\n                LIMIT 10\n                "),
   ("Тренд продажів по місяцях 2023",
    "\n                SELECT \n                    dt.month,\n                    dt.month_name,\n                    SUM(sf.total_amount) as total_sales,\n                    COUNT(*) as transaction_count\n                FROM sales_facts sf\n                JOIN dim_time dt ON sf.time_id = dt.time_id\n                WHERE dt.year = 2023\n                GROUP BY dt.month, dt.month_name\n                ORDER BY dt.month\n                ",
    "\n                SELECT \n                    dt.month,\n                    dt.month_name,\n                    SUM(sf.total_amount) as total_sales,\n                    COUNT(*) as transaction_count\n                FROM sales_facts sf\n                JOIN dim_time dt ON sf.time_id = dt.time_id\n                WHERE dt.year = 2023\n                GROUP BY dt.month, dt.month_name\n                ORDER BY dt.month\n                "),
   ("Продуктивність продавців",
    "\n                SELECT \n                    ds.salesperson_name,\n                    ds.region_name,\n                    SUM(sf.total_amount) as total_sales,\n                    COUNT(*) as deals_count,\n                    AVG(sf.total_amount) as avg_deal_size\n                FROM sales_facts sf\n                JOIN dim_salesperson ds ON sf.salesperson_id = ds.salesperson_id\n                GROUP BY ds.salesperson_id, ds.salesperson_name, ds.region_name\n                ORDER BY total_sales DESC\n                LIMIT 20\n                ",
    "\n                SELECT \n                    ds.salesperson_name,\n                    dr.region_name,\n                    SUM(sf.total_amount) as total_sales,\n                    COUNT(*) as deals_count,\n                    AVG(sf.total_amount) as avg_deal_size\n                FROM sales_facts sf\n                JOIN dim_salesperson ds ON sf.salesperson_id = ds.salesperson_id\n                JOIN dim_region dr ON ds.region_id = dr.region_id\n                GROUP BY ds.salesperson_id, ds.salesperson_name, dr.region_name\n                ORDER BY total_sales DESC\n                LIMIT 20\n                "),
   ("Комплексний аналіз продажів",
    "\n                SELECT \n                    dp.category_name,\n                    dc.region_name,\n                    dt.quarter,\n                    dt.year,\n                    SUM(sf.total_amount) as total_sales,\n                    SUM(sf.quantity) as total_quantity,\n                    AVG(sf.discount) as avg_discount,\n                    COUNT(DISTINCT sf.customer_id) as unique_customers\n                FROM sales_facts sf\n                JOIN dim_product dp ON sf.product_id = dp.product_id\n                JOIN dim_customer dc ON sf.customer_id = dc.customer_id\n                JOIN dim_time dt ON sf.time_id = dt.time_id\n                WHERE dt.year IN (2023, 2024)\n                GROUP BY dp.category_name, dc.region_name, dt.quarter, dt.year\n                HAVING SUM(sf.total_amount) > 10000\n                ORDER BY total_sales DESC\n                ",
    "\n                SELECT \n                    dcat.category_name,\n                    dr.region_name,\n                    dt.quarter,\n                    dt.year,\n                    SUM(sf.total_amount) as total_sales,\n                    SUM(sf.quantity) as total_quantity,\n                    AVG(sf.discount) as avg_discount,\n                    COUNT(DISTINCT sf.customer_id) as unique_customers\n                FROM sales_facts sf\n                JOIN dim_product dp ON sf.product_id = dp.product_id\n                JOIN dim_subcategory dsub ON dp.subcategory_id = dsub.subcategory_id\n                JOIN dim_category dcat ON dsub.category_id = dcat.category_id\n                JOIN dim_customer dc ON sf.customer_id = dc.customer_id\n                JOIN dim_city dci ON dc.city_id = dci.city_id\n                JOIN dim_region dr ON dci.region_id = dr.region_id\n                JOIN dim_time dt ON sf.time_id = dt.time_id\n                WHERE dt.year IN (2023, 2024)\n                GROUP BY dcat.category_name, dr.region_name, dt.quarter, dt.year\n                HAVING SUM(sf.total_amount) > 10000\n                ORDER BY total_sales DESC\n                ")
  ]

/-- Occurrences of the substring "JOIN" in a character stream: the number
of join hops of one of the suite's SQL texts. -/
def countJoinChars : List Char → Nat
  | 'J' :: 'O' :: 'I' :: 'N' :: rest => 1 + countJoinChars rest
  | _ :: rest => countJoinChars rest
  | [] => 0

def countJoin (s : String) : Nat := countJoinChars s.data

/-- C9: the suite has exactly five entries; in the third (index 2, the
month-trend filter-by-year query) the two SQL texts are identical, and in
every other entry the snowflake SQL has strictly more JOIN hops than the
star SQL. -/
theorem c9_suite_shape :
    get_analytical_queries.length = 5 ∧
    (get_analytical_queries.getD 2 ("", "", "")).2.1 =
      (get_analytical_queries.getD 2 ("", "", "")).2.2 ∧
    ((get_analytical_queries.enum.filter (fun q => q.1 != 2)).all
      (fun q => decide (countJoin q.2.2.1 < countJoin q.2.2.2))) = true := by
  refine ⟨rfl, rfl, ?_⟩
  decide

/-! ## C8: connection lifecycle of the entry points -/

/-- Control-flow skeleton of `star_schema.main` and
`snowflake_schema.main` (their try/except/finally structure is
identical): `try: connect(); create_schema(); load_data();
print_schema_info() except Exception: print(...) finally: disconnect()`.
Each boolean says whether that step raises. The try body stops at the
first exception; `connect()` both opens the sqlite connection and sets
`self.conn`; the bare `except` swallows the exception; `disconnect()`
closes the connection only when `self.conn` is set. Result: (main
returned normally, connections open at exit). -/
def builder_main_run (failConnect failCreate failLoad failPrint : Bool) : Bool × Nat :=
  let connSet := !failConnect
  let opened := if connSet then 1 else 0
  let _bodyCompleted := !failConnect && !failCreate && !failLoad && !failPrint
  let openAfterFinally := if connSet then opened - 1 else opened
  (true, openAfterFinally)

def star_main_run (failConnect failCreate failLoad failPrint : Bool) : Bool × Nat :=
  builder_main_run failConnect failCreate failLoad failPrint

def snowflake_main_run (failConnect failCreate failLoad failPrint : Bool) : Bool × Nat :=
  builder_main_run failConnect failCreate failLoad failPrint

/-- The comparator's per-query loop: executes the suite in order;
`failAt = some i` means executing query pair `i` raises (e.g. a missing
table). The loop completes only when no query raises. -/
def runQueries : List (String × String × String) → Option Nat → Nat → Bool
  | [], _, _ => true
  | _ :: rest, failAt, i =>
    if failAt = some i then false
    else runQueries rest failAt (i + 1)

/-- `run_performance_tests`: opens the star and snowflake connections,
runs the query loop, and reaches its two `close()` calls only if the loop
completed — there is no try/finally around the loop, so an exception
propagates with both connections open. Result: (returned normally,
connections open at exit). -/
def run_performance_tests (failAt : Option Nat) : Bool × Nat :=
  let conns := 2
  if runQueries get_analytical_queries failAt 0 then (true, conns - 2)
  else (false, conns)

/-- C8 counterexample: when the first query pair raises, the comparator
run exits abnormally with both connections still open, refuting the claim
that every entry point closes its connections on any exception. -/
theorem c8_counterexample_comparator_leaks :
    run_performance_tests (some 0) = (false, 2) ∧
    (run_performance_tests (some 0)).2 ≠ 0 := by
  constructor
  · rfl
  · decide

/-- C8 (amended): the two schema builders' `main` procedures close their
connection on normal completion and on any exception (try/finally), and
the comparator closes its two connections on normal completion — but only
then; an exception in its query loop leaks both connections (see the
counterexample). -/
theorem c8_builders_close_comparator_normal_only :
    (∀ fc fcr fl fp, (star_main_run fc fcr fl fp).2 = 0) ∧
    (∀ fc fcr fl fp, (snowflake_main_run fc fcr fl fp).2 = 0) ∧
    run_performance_tests none = (true, 0) := by
  refine ⟨?_, ?_, rfl⟩ <;> decide

/-! ## C10: per-query ratio reporting is partial -/

/-- Python float division, raising `ZeroDivisionError` on a zero divisor. -/
def pyDiv (a b : ℚ) : Except Unit ℚ :=
  if b = 0 then Except.error () else Except.ok (a / b)

/-- Lines 66–71 of `run_performance_tests`: when the snowflake time is
positive, `ratio = star_time / snowflake_time`; `ratio < 1` prints
"star faster by 1/ratio", else prints "snowflake faster by ratio". -/
def perQueryRatioReport (starMs snowMs : ℚ) : Except Unit Unit :=
  if snowMs > 0 then
    match pyDiv starMs snowMs with
    | Except.error e => Except.error e
    | Except.ok r =>
      if r < 1 then (pyDiv 1 r).map (fun _ => ())
      else Except.ok ()
  else Except.ok ()

/-- Lines 393–404 of `print_detailed_results`:
`ratio = snowflake_time / star_time if star_time > 0 else 0`; `ratio > 1`
prints "star faster by ratio", else prints "snowflake faster by 1/ratio". -/
def detailedRatioReport (starMs snowMs : ℚ) : Except Unit Unit :=
  let r := if starMs > 0 then snowMs / starMs else 0
  if r > 1 then Except.ok ()
  else (pyDiv 1 r).map (fun _ => ())

/-- C10: the ratio reporting is not total — a zero star time with a
positive snowflake time makes the per-query loop's "star faster" branch
divide 1 by a zero ratio, and a zero snowflake time with a positive star
time makes the detailed printer do the same. -/
theorem c10_ratio_division_by_zero (s : ℚ) (hs : 0 < s) :
    perQueryRatioReport 0 s = Except.error () ∧
    detailedRatioReport s 0 = Except.error () := by
  constructor
  · unfold perQueryRatioReport pyDiv
    rw [if_pos hs, if_neg (ne_of_gt hs)]
    norm_num
    rfl
  · unfold detailedRatioReport pyDiv
    rw [if_pos hs]
    norm_num
    rfl

/-- Witness: C10 at star time 0 ms, snowflake time 1 ms (and conversely). -/
theorem c10_ratio_division_by_zero_witness :
    (0 : ℚ) < 1 ∧
    (perQueryRatioReport 0 1 = Except.error () ∧
     detailedRatioReport 1 0 = Except.error ()) :=
  ⟨by norm_num, c10_ratio_division_by_zero 1 (by norm_num)⟩

end SalesLab
